import Mathlib

/-!
Verification development for the document-layout inference engine
(`extract_layout.py`, `detect_controls.py`, `combined_extractor.py`).

The Python sources are shallowly embedded below.  Conventions:

* All geometric coordinates and intensity/ratio measurements are modelled as
  rationals (`ℚ`); the Python code computes with floats, and none of the
  verified properties depend on float rounding, only on comparisons and
  exact arithmetic on small decimal values.
* Pixel-level OpenCV primitives (contour search, Hough circles, mask fill
  ratios, morphological line detection, the projection histogram) are the
  image-processing boundary: their per-candidate measurements are taken as
  inputs (`CheckboxCandidate`, `CircleCandidate`, `InputBoxCandidate`,
  `HLine`/`VLine`, `Band`), and everything the Python code computes *from*
  those measurements is embedded faithfully.
* Likewise the PyMuPDF span extraction and span-to-block assembly
  (`extract_page_blocks` / `merge_continuation_blocks`) is the text-extraction
  boundary: a page is given by its assembled block list (`PageDoc`), which is
  what every claim under verification consumes.
* Python dicts with optional keys become structures with `Option` fields.
-/

namespace Layout

/- The kernel evaluates rational arithmetic fine; these core operations are
merely tagged irreducible, which blocks `decide`'s elaboration-time check on
concrete inputs.  Restore the default reducibility for this file. -/
attribute [local semireducible] Rat.mul Rat.add Rat.sub Rat.inv

/-- Python `round(x)` (no digits): round half to even, on exact rationals. -/
def pyRound (q : ℚ) : ℤ :=
  let f : ℤ := ⌊q⌋
  let frac : ℚ := q - f
  if frac < 1/2 then f
  else if 1/2 < frac then f + 1
  else if Even f then f else f + 1

/-- Python `round(x, n)`: rounding to `n` decimal digits (idealized over ℚ). -/
def pyRoundTo (n : ℕ) (q : ℚ) : ℚ :=
  (pyRound (q * (10:ℚ)^n) : ℚ) / (10:ℚ)^n

/-- Python `int(x)`: truncation toward zero. -/
def pyInt (q : ℚ) : ℤ :=
  if 0 ≤ q then ⌊q⌋ else -⌊-q⌋

/-- Stable insertion step for an ascending sort by a rational key.  An element
being inserted was earlier in the original list than everything already in the
accumulator (the sort folds from the right), so it goes before equal keys. -/
def insertAsc (key : α → ℚ) (x : α) : List α → List α
  | [] => [x]
  | y :: ys => if key x ≤ key y then x :: y :: ys else y :: insertAsc key x ys

/-- Stable ascending sort by key; agrees with Python `sorted(l, key=key)`. -/
def sortAsc (key : α → ℚ) (l : List α) : List α := l.foldr (insertAsc key) []

/-- Stable insertion step for a descending sort by a rational key. -/
def insertDesc (key : α → ℚ) (x : α) : List α → List α
  | [] => [x]
  | y :: ys => if key y ≤ key x then x :: y :: ys else y :: insertDesc key x ys

/-- Stable descending sort by key; agrees with
Python `sorted(l, key=key, reverse=True)`. -/
def sortDesc (key : α → ℚ) (l : List α) : List α := l.foldr (insertDesc key) []

/-- Python `min(f(x) for x in l)` over a nonempty list (0 on the empty list,
which the sources never reach). -/
def listMin (f : α → ℚ) : List α → ℚ
  | [] => 0
  | x :: xs => xs.foldl (fun m y => min m (f y)) (f x)

/-- Python `max(f(x) for x in l)` over a nonempty list (0 on the empty list,
which the sources never reach). -/
def listMax (f : α → ℚ) : List α → ℚ
  | [] => 0
  | x :: xs => xs.foldl (fun m y => max m (f y)) (f x)

/-- A bounding box, `(x0, y0, x1, y1)` with y growing downward. -/
structure BBox where
  x0 : ℚ
  y0 : ℚ
  x1 : ℚ
  y1 : ℚ
deriving DecidableEq, Repr

/-- An assembled text block (output of the span-assembly stage of
`extract_page_blocks`): text, document-space bbox, font size, bold flag and
the sequential id assigned after the final sort. -/
structure Block where
  id : ℕ
  text : String
  bbox : BBox
  font_size : ℚ
  is_bold : Bool
deriving DecidableEq, Repr

/-- Vertical center of a block's bbox, `(y0 + y1) / 2`. -/
def blockYCenter (b : Block) : ℚ := (b.bbox.y0 + b.bbox.y1) / 2

/-- A row of blocks.  `source` is present only on visually derived rows
(`assign_blocks_to_bands` sets it); `rtype` (the `type` key) is present once
`classify_rows` has run. -/
structure Row where
  blocks : List Block
  y_min : ℚ
  y_max : ℚ
  source : Option String := none
  rtype : Option String := none
deriving DecidableEq, Repr

/-- Close off the row under construction in `group_into_rows`: sort its blocks
by `x0` and record the rounded vertical extent. -/
def finishRow (cur : List Block) : Row :=
  { blocks := sortAsc (fun b => b.bbox.x0) cur
    y_min := pyRoundTo 2 (listMin (fun b => b.bbox.y0) cur)
    y_max := pyRoundTo 2 (listMax (fun b => b.bbox.y1) cur) }

/-- Mean vertical center of the blocks accumulated in the current row. -/
def avgYCenter (cur : List Block) : ℚ :=
  (cur.map blockYCenter).sum / (cur.length : ℚ)

/-- Worker for `group_into_rows`: `cur` is the row under construction (in
arrival order, nonempty), `center` its running average vertical center. -/
def groupIntoRowsAux : List Block → List Row → List Block → ℚ → List Row
  | [], rows, cur, _ => rows ++ [finishRow cur]
  | b :: bs, rows, cur, center =>
    if |blockYCenter b - center| ≤ 3 then
      let cur2 := cur ++ [b]
      groupIntoRowsAux bs rows cur2 (avgYCenter cur2)
    else
      groupIntoRowsAux bs (rows ++ [finishRow cur]) [b] (blockYCenter b)

/-- `group_into_rows(blocks)` of `extract_layout.py` (y_tolerance = 3): group
successive blocks into a row while each vertical center stays within tolerance
of the running average center of the row so far. -/
def group_into_rows : List Block → List Row
  | [] => []
  | b :: bs => groupIntoRowsAux bs [] [b] (blockYCenter b)

/-- The statistics record of `compute_stats` (present iff blocks exist). -/
structure StatsV where
  median_font_size : ℚ
  min_font_size : ℚ
  max_font_size : ℚ
  total_blocks : ℕ
deriving DecidableEq, Repr

/-- `compute_stats(blocks)`: font-size statistics, `{}` (here `none`) on an
empty block list. -/
def compute_stats (blocks : List Block) : Option StatsV :=
  match blocks with
  | [] => none
  | _ =>
    let fs := blocks.map (fun b => b.font_size)
    some { median_font_size := pyRoundTo 2 ((sortAsc id fs).getD (fs.length / 2) 0)
           min_font_size := pyRoundTo 2 (listMin id fs)
           max_font_size := pyRoundTo 2 (listMax id fs)
           total_blocks := blocks.length }

/-- `stats.get("median_font_size", 10)`. -/
def statsMedian : Option StatsV → ℚ
  | some s => s.median_font_size
  | none => 10

/-- The bullet characters of `classify_row`. -/
def bulletChars : List Char := ['•', '●', '○', '◦', '‣', '⁃', '-', '–', '—']

/-- Python `text.lstrip().startswith(tuple(bullet_chars))`. -/
def startsWithBullet (s : String) : Bool :=
  match s.trimLeft.data with
  | [] => false
  | c :: _ => bulletChars.contains c

/-- Python `re.match(r"^\d+[\)\.\:]", text.lstrip())` as a Boolean. -/
def matchesNumbered (s : String) : Bool :=
  let cs := s.trimLeft.data
  let digits := cs.takeWhile Char.isDigit
  let rest := cs.dropWhile Char.isDigit
  !digits.isEmpty &&
    match rest with
    | c :: _ => c == ')' || c == '.' || c == ':'
    | [] => false

/-- `classify_row(row, page_width, median_font_size)` of `extract_layout.py`:
the priority-ordered row-type decision tree.  (`all_text` and `total_width`
are computed but unused in the source and are omitted.) -/
def classify_row (row : Row) (page_width : ℚ) (median_font_size : ℚ) : String :=
  match row.blocks with
  | [] => "empty"
  | first :: _ =>
    let blocks := row.blocks
    let row_x_span :=
      listMax (fun b => b.bbox.x1) blocks - listMin (fun b => b.bbox.x0) blocks
    let num_blocks := blocks.length
    let has_bullet := blocks.any (fun b => startsWithBullet b.text)
    let has_number := blocks.any (fun b => matchesNumbered b.text)
    let is_bold := first.is_bold
    let is_large := decide (median_font_size * (11/10) < first.font_size)
    let is_full_width := decide (page_width * (7/10) < row_x_span)
    let short_count := (blocks.filter (fun b => b.text.length < 20)).length
    let shortRatio : ℚ := if 0 < num_blocks then (short_count : ℚ) / num_blocks else 0
    if num_blocks == 1 then
      if has_bullet then "bullet-item"
      else if has_number then "numbered-item"
      else if is_bold || is_large then "header"
      else if 100 < first.text.length then "paragraph"
      else "label"
    else if has_bullet then "bullet-list"
    else if has_number && decide (1 < num_blocks) && decide ((1:ℚ)/2 < shortRatio) then
      "option-row"
    else if decide (3 ≤ num_blocks) && decide ((3:ℚ)/5 < shortRatio) then
      "option-row"
    else if num_blocks == 2 then
      match blocks with
      | b1 :: b2 :: _ =>
        if b2.text.length * 2 < b1.text.length then "label-value" else "label-pair"
      | _ => "mixed"
    else if is_full_width && decide (num_blocks ≤ 2) then "paragraph"
    else "mixed"

/-- `classify_rows(rows, page_width, stats)`: set the `type` key on each row. -/
def classify_rows (rows : List Row) (page_width : ℚ) (stats : Option StatsV) :
    List Row :=
  rows.map fun r => { r with rtype := some (classify_row r page_width (statsMedian stats)) }

/-- The `compatible_types` table of `can_group_rows` (`dict.get(t, [])`). -/
def compatibleTypes : String → List String
  | "label-value" => ["label-value", "label-pair", "mixed"]
  | "label-pair" => ["label-value", "label-pair", "mixed"]
  | "option-row" => ["option-row"]
  | "header" => []
  | "paragraph" => []
  | "bullet-item" => ["bullet-item"]
  | "bullet-list" => ["bullet-list", "bullet-item"]
  | "numbered-item" => ["numbered-item"]
  | "label" => ["label", "label-value"]
  | "mixed" => ["label-value", "label-pair", "mixed"]
  | _ => []

/-- Total horizontal extent of a list of blocks (0 when empty). -/
def rowWidth (bs : List Block) : ℚ :=
  if bs.isEmpty then 0
  else listMax (fun b => b.bbox.x1) bs - listMin (fun b => b.bbox.x0) bs

/-- `can_group_rows(row1, row2)` of `extract_layout.py`
(x_tolerance = 10, width_tolerance = 0.15). -/
def can_group_rows (row1 row2 : Row) : Bool :=
  let blocks1 := row1.blocks
  let blocks2 := row2.blocks
  let countDiff := max blocks1.length blocks2.length - min blocks1.length blocks2.length
  if 1 < countDiff then false
  else
    let narrowOk :=
      if countDiff == 1 then
        let extra := if blocks2.length < blocks1.length then blocks1 else blocks2
        extra.any (fun b => decide (b.bbox.x1 - b.bbox.x0 < 20))
      else true
    if !narrowOk then false
    else
      let x0Ok :=
        match blocks1, blocks2 with
        | b1 :: _, b2 :: _ => decide (|b1.bbox.x0 - b2.bbox.x0| ≤ 10)
        | _, _ => true
      if !x0Ok then false
      else
        let width1 := rowWidth blocks1
        let width2 := rowWidth blocks2
        let widthOk :=
          if 0 < width1 ∧ 0 < width2 then
            if blocks1.length == 1 && blocks2.length == 1 then true
            else decide ((17:ℚ)/20 ≤ min width1 width2 / max width1 width2)
          else true
        if !widthOk then false
        else
          let type1 := row1.rtype.getD "mixed"
          let type2 := row2.rtype.getD "mixed"
          if !(compatibleTypes type1).contains type2 &&
             !(compatibleTypes type2).contains type1 then
            type1 == type2
          else true

/-- Mean number of blocks per row of a (nonempty) row group. -/
def avgBlocksPerRow (rows : List Row) : ℚ :=
  ((rows.map (fun r => r.blocks.length)).sum : ℚ) / (rows.length : ℚ)

/-- `infer_group_hint(rows)` of `extract_layout.py`. -/
def infer_group_hint (rows : List Row) : String :=
  if rows.isEmpty then "unknown"
  else
    let types := rows.map (fun r => r.rtype.getD "mixed")
    if types.all (fun t => t == "option-row") then "options"
    else if types.all (fun t => t == "bullet-item" || t == "bullet-list") then "list"
    else if types.all (fun t => t == "numbered-item") then "list"
    else if types.all (fun t => t == "label-value" || t == "label-pair" || t == "mixed") then
      if (2:ℚ) ≤ avgBlocksPerRow rows then "grid" else "stack"
    else "grid"

/-- A grid-mapped row of `apply_grid_to_row_group`. -/
structure GridRow where
  y_min : ℚ
  y_max : ℚ
  rtype : Option String
  cells : List (Option Block)
deriving DecidableEq, Repr

/-- The grid structure returned by `apply_grid_to_row_group`. -/
structure Grid where
  columnsN : ℕ
  column_boundaries : List (ℚ × ℚ)
  rows : List GridRow
deriving DecidableEq, Repr

/-- A row group of `group_consecutive_rows`; `grid` is attached later by
`extract_combined` when `apply_grid_to_row_group` succeeds. -/
structure RowGroup where
  gid : String
  row_indices : List ℕ
  hint : String
  row_count : ℕ
  grid : Option Grid := none
deriving DecidableEq, Repr

/-- Finalize the indexed run of rows accumulated by `group_consecutive_rows`:
keep it only if it meets the size minimum for its inferred hint (3 for `grid`,
2 otherwise).  Returns the emitted groups and the updated group counter. -/
def finalizeGroup (cur : List (ℕ × Row)) (counter : ℕ) : List RowGroup × ℕ :=
  if 2 ≤ cur.length then
    let hint := infer_group_hint (cur.map Prod.snd)
    let minSize := if hint == "grid" then 3 else 2
    if minSize ≤ cur.length then
      ([{ gid := "g" ++ toString counter
          row_indices := cur.map Prod.fst
          hint := hint
          row_count := cur.length }], counter + 1)
    else ([], counter)
  else ([], counter)

/-- Worker for `group_consecutive_rows`.  `curRev` is the run under
construction, most recent row first (so its head is Python's
`current_group[-1]`); rows carry their index in the original row list, which
is what the source's `r is gr` identity search recovers. -/
def groupConsecutiveAux : List (ℕ × Row) → List RowGroup → List (ℕ × Row) → ℕ →
    List RowGroup
  | [], groups, curRev, counter => groups ++ (finalizeGroup curRev.reverse counter).1
  | ir :: rest, groups, curRev, counter =>
    match curRev with
    | last :: _ =>
      if can_group_rows last.2 ir.2 then
        groupConsecutiveAux rest groups (ir :: curRev) counter
      else
        let fin := finalizeGroup curRev.reverse counter
        groupConsecutiveAux rest (groups ++ fin.1) [ir] fin.2
    | [] => groupConsecutiveAux rest groups [ir] counter

/-- `group_consecutive_rows(rows)` of `extract_layout.py` (x_tolerance = 10). -/
def group_consecutive_rows (rows : List Row) : List RowGroup :=
  match rows.enum with
  | [] => []
  | [_] => []
  | first :: rest => groupConsecutiveAux rest [] [first] 0

/-- `cluster_positions(xs, tolerance)` of `extract_layout.py`: sort, chain
positions whose distance to the last element of the open cluster is within
tolerance, return cluster means. -/
def cluster_positions (xs : List ℚ) (tolerance : ℚ) : List ℚ :=
  match sortAsc id xs with
  | [] => []
  | x :: rest =>
    let clusters := rest.foldl (fun (cls : List (List ℚ)) x =>
      match cls with
      | c :: cs => if |x - c.headD 0| ≤ tolerance then (x :: c) :: cs else [x] :: c :: cs
      | [] => [[x]]) [[x]]
    (clusters.map (fun c => c.sum / (c.length : ℚ))).reverse

/-- `infer_grid_columns(row_group_rows)` (tolerance = 15): collect all block
x0/x1 values across the group, cluster them, and pair consecutive boundaries
into column ranges. -/
def infer_grid_columns (rows : List Row) : List (ℚ × ℚ) :=
  let all_x := rows.flatMap (fun r => r.blocks.flatMap (fun b => [b.bbox.x0, b.bbox.x1]))
  if all_x.isEmpty then []
  else
    let boundaries := cluster_positions all_x 15
    if boundaries.length < 2 then []
    else boundaries.zip boundaries.tail

/-- The first column index whose range overlaps the block
(`start_col` in `map_row_to_grid`). -/
def firstOverlapCol (b : Block) (columns : List (ℚ × ℚ)) : Option ℕ :=
  columns.findIdx? (fun c => decide (b.bbox.x0 < c.2) && decide (c.1 < b.bbox.x1))

/-- The per-block placement step of `map_row_to_grid`: write the block into
the first column it overlaps (if any), overwriting the cell. -/
def placeBlock (columns : List (ℚ × ℚ)) (cells : List (Option Block)) (b : Block) :
    List (Option Block) :=
  match firstOverlapCol b columns with
  | some i => cells.set i (some b)
  | none => cells

/-- `map_row_to_grid(row, columns)` of `extract_layout.py`: place each block
into the first grid column it overlaps (the source computes `end_col` as well
but never uses it for placement); later blocks overwrite the cell. -/
def map_row_to_grid (row : Row) (columns : List (ℚ × ℚ)) : List (Option Block) :=
  if columns.isEmpty then []
  else row.blocks.foldl (placeBlock columns) (List.replicate columns.length none)

/-- `apply_grid_to_row_group(rows, row_indices)` of `extract_layout.py`. -/
def apply_grid_to_row_group (rows : List Row) (row_indices : List ℕ) : Option Grid :=
  if row_indices.isEmpty then none
  else
    let group_rows := row_indices.filterMap (fun i => rows.get? i)
    if group_rows.isEmpty then none
    else
      let columns := infer_grid_columns group_rows
      if columns.isEmpty then none
      else
        some { columnsN := columns.length
               column_boundaries := columns.map (fun c => (pyRoundTo 2 c.1, pyRoundTo 2 c.2))
               rows := group_rows.map (fun r =>
                 { y_min := r.y_min, y_max := r.y_max, rtype := r.rtype
                   cells := map_row_to_grid r columns }) }

/-- `detect_columns(rows)` of `extract_layout.py` (x_tolerance = 10, strict
`<` chaining on the sorted x0 list, rounded cluster means). -/
def detect_columns (rows : List Row) : List ℚ :=
  let xs := rows.flatMap (fun r => r.blocks.map (fun b => b.bbox.x0))
  match sortAsc id xs with
  | [] => []
  | x :: rest =>
    let clusters := rest.foldl (fun (cls : List (List ℚ)) x =>
      match cls with
      | c :: cs => if x - c.headD 0 < 10 then (x :: c) :: cs else [x] :: c :: cs
      | [] => [[x]]) [[x]]
    (clusters.map (fun c => pyRoundTo 2 (c.sum / (c.length : ℚ)))).reverse

/-- The column-count signal of `classify_page_type`: 1 when the detected
column list is empty, otherwise the rough estimate
`max(1, significant_cols // 3)` where significant columns are 10pt-rounded
x0 buckets used by at least 3 blocks. -/
def columnCountSignal (blocks : List Block) (columns : List ℚ) : ℕ :=
  if columns.isEmpty then 1
  else
    let xs := blocks.map (fun b => pyRound (b.bbox.x0 / 10) * 10)
    let sig := (xs.dedup.filter (fun x => 3 ≤ xs.count x)).length
    max 1 (sig / 3)

/-- The text-density signal: blocks per 100x100pt area.  (Python divides; a
zero-area page would raise there, and is treated as out of scope here.) -/
def textDensitySignal (blocks : List Block) (pw ph : ℚ) : ℚ :=
  (blocks.length : ℚ) / (pw * ph / 10000)

/-- The average block-width ratio signal. -/
def widthRatioSignal (blocks : List Block) (pw : ℚ) : ℚ :=
  let widths := blocks.map (fun b => b.bbox.x1 - b.bbox.x0)
  let avg := if widths.isEmpty then 0 else widths.sum / (widths.length : ℚ)
  if 0 < pw then avg / pw else 0

/-- The x-alignment score: the fraction of blocks whose rounded x0 is shared
by at least 3 blocks (the source's `sum(c for c in x_counts.values() if c >= 3)`
equals counting the blocks whose bucket has multiplicity at least 3). -/
def alignmentSignal (blocks : List Block) : ℚ :=
  let xs := blocks.map (fun b => pyRound b.bbox.x0)
  let aligned := xs.countP (fun x => 3 ≤ xs.count x)
  if blocks.isEmpty then 0 else (aligned : ℚ) / (blocks.length : ℚ)

/-- The `signals` record of `classify_page_type` (values rounded as output). -/
structure Signals where
  control_count : ℕ
  column_count : ℕ
  text_density : ℚ
  avg_width_ratio : ℚ
  alignment_score : ℚ
  block_count : ℕ
deriving DecidableEq, Repr

/-- A page classification: `page_type`, the signals that produced it
(absent on the no-blocks early return, where the source emits `{}`), and a
reason tag. -/
structure Classification where
  page_type : String
  signals : Option Signals
  reason : String
deriving DecidableEq, Repr

/-- `classify_page_type(blocks, columns, page_width, page_height,
control_count)` of `extract_layout.py`: the priority-ordered page-type
decision (first match wins), after a no-blocks early return. -/
def classify_page_type (blocks : List Block) (columns : List ℚ) (pw ph : ℚ)
    (control_count : ℕ) : Classification :=
  if blocks.isEmpty then
    { page_type := "text", signals := none, reason := "no blocks" }
  else
    let has_controls := 0 < control_count
    let column_count := columnCountSignal blocks columns
    let text_density := textDensitySignal blocks pw ph
    let width_ratio := widthRatioSignal blocks pw
    let alignment_score := alignmentSignal blocks
    let signals : Signals :=
      { control_count := control_count
        column_count := column_count
        text_density := pyRoundTo 3 text_density
        avg_width_ratio := pyRoundTo 3 width_ratio
        alignment_score := pyRoundTo 3 alignment_score
        block_count := blocks.length }
    if 2 ≤ control_count then
      { page_type := "form", signals := some signals, reason := "has_controls" }
    else if 5 < text_density ∧ ¬ has_controls then
      { page_type := "text", signals := some signals, reason := "high_density_no_controls" }
    else if 2 ≤ column_count ∧ ¬ has_controls then
      { page_type := "text", signals := some signals, reason := "multi_column" }
    else if (2:ℚ)/5 < alignment_score ∧ width_ratio < (3:ℚ)/5 ∧ text_density < 5 then
      { page_type := "form", signals := some signals, reason := "grid_alignment" }
    else if (7:ℚ)/10 < width_ratio ∧ (1:ℚ)/2 < text_density then
      { page_type := "text", signals := some signals, reason := "prose_layout" }
    else
      { page_type := "form", signals := some signals, reason := "default" }

/-- A page as delivered by the text-extraction boundary: the assembled block
list (output of `extract_page_blocks`) plus the rounded page dimensions. -/
structure PageDoc where
  blocks : List Block
  width : ℚ
  height : ℚ
deriving DecidableEq, Repr

/-- One entry of the `pages` array of `extract_pdf`. -/
structure PageEntry where
  page_number : ℤ
  width : ℚ
  height : ℚ
  blocks : List Block
  rows : List Row
  columns : List ℚ
  stats : Option StatsV
deriving DecidableEq, Repr

/-- `extract_pdf(pdf_path, page_num)` of `extract_layout.py`, in the
single-page mode used by `extract_combined` (page_num is always given there):
the 0-indexed page `page_num - 1` is processed when it is in range, otherwise
it is skipped and the `pages` array comes back empty.  Returns the `pages`
array. -/
def extract_pdf (doc : List PageDoc) (page_num : ℤ) : List PageEntry :=
  let idx := page_num - 1
  if 0 ≤ idx then
    match doc.get? idx.toNat with
    | some pd =>
      let blocks := pd.blocks
      let rows0 := group_into_rows blocks
      let stats := compute_stats blocks
      let rows := classify_rows rows0 pd.width stats
      let columns := detect_columns rows
      [{ page_number := page_num, width := pd.width, height := pd.height
         blocks := blocks, rows := rows, columns := columns, stats := stats }]
    | none => []
  else []

/-- Area of a bbox, `(x1 - x0) * (y1 - y0)`. -/
def bboxArea (b : BBox) : ℚ := (b.x1 - b.x0) * (b.y1 - b.y0)

/-- Intersection area of two bboxes, meaningful when they overlap. -/
def interArea (b1 b2 : BBox) : ℚ :=
  (min b1.x1 b2.x1 - max b1.x0 b2.x0) * (min b1.y1 b2.y1 - max b1.y0 b2.y0)

/-- The IoU computation of `remove_overlapping` in `detect_controls.py`:
0 when the boxes do not strictly overlap or the union is non-positive. -/
def iouQ (b1 b2 : BBox) : ℚ :=
  if max b1.x0 b2.x0 < min b1.x1 b2.x1 ∧ max b1.y0 b2.y0 < min b1.y1 b2.y1 then
    if 0 < bboxArea b1 + bboxArea b2 - interArea b1 b2 then
      interArea b1 b2 / (bboxArea b1 + bboxArea b2 - interArea b1 b2)
    else 0
  else 0

/-- The generic geometric features of `compute_control_features`. -/
structure Features where
  width_px : ℚ
  height_px : ℚ
  aspect : ℚ
  width_pt : ℚ
  height_pt : ℚ
deriving DecidableEq, Repr

/-- A detected control.  Optional fields model the type-specific dict keys of
the source (`checked` for checkboxes, `selected`/center/radius for radio
buttons); `features` is attached by `extract_combined` before label mapping. -/
structure Control where
  ctype : String
  bbox : BBox
  confidence : ℚ
  checked : Option Bool := none
  selected : Option Bool := none
  centerX : Option ℚ := none
  centerY : Option ℚ := none
  radius : Option ℚ := none
  features : Option Features := none
deriving DecidableEq, Repr

/-- One step of the keep-loop of `remove_overlapping`: append the control
unless it overlaps (IoU strictly above threshold) something already kept. -/
def keepStep (t : ℚ) (keep : List Control) (c : Control) : List Control :=
  if keep.any (fun k => decide (t < iouQ c.bbox k.bbox)) then keep else keep ++ [c]

/-- `remove_overlapping(controls, iou_threshold)` of `detect_controls.py`:
sort by confidence descending (stable), then keep a control only when its IoU
with every already-kept control is at most the threshold. -/
def remove_overlapping (controls : List Control) (t : ℚ) : List Control :=
  (sortDesc (fun c => c.confidence) controls).foldl (keepStep t) []

/-- Pixel measurements for one checkbox contour candidate, as produced by the
OpenCV boundary of `detect_checkboxes`: the bounding rectangle, the vertex
count of the polygon approximation, and the grayscale means of the contour
interior (`center_mean`) and of the four border lines (`edge_mean`). -/
structure CheckboxCandidate where
  x : ℤ
  y : ℤ
  w : ℤ
  h : ℤ
  approxLen : ℕ
  centerMean : ℚ
  edgeMean : ℚ
deriving DecidableEq, Repr

/-- `detect_checkboxes(gray, binary, min_size, max_size)` of
`detect_controls.py`, from the contour candidates' pixel measurements:
size window, near-square aspect, 4-8 vertices, bordered-box test
(`edge_mean < center_mean + 30`), checked iff `center_mean < 220`, fixed
confidence 0.7, then overlap removal at IoU threshold 0.3. -/
def checkboxOfCandidate (min_size max_size : ℤ) (cd : CheckboxCandidate) :
    Option Control :=
  if cd.w < min_size ∨ cd.h < min_size ∨ max_size < cd.w ∨ max_size < cd.h then none
  else
    let aspect : ℚ := if 0 < cd.h then (cd.w : ℚ) / (cd.h : ℚ) else 0
    if aspect < 7/10 ∨ 7/5 < aspect then none
    else if cd.approxLen < 4 ∨ 8 < cd.approxLen then none
    else if cd.w = 0 ∨ cd.h = 0 then none
    else
      let bw := max 2 (min cd.w cd.h / 4)
      if 2 * bw < cd.w ∧ 2 * bw < cd.h then
        if cd.edgeMean < cd.centerMean + 30 then
          some { ctype := "checkbox"
                 bbox := { x0 := (cd.x : ℚ), y0 := (cd.y : ℚ)
                           x1 := ((cd.x + cd.w : ℤ) : ℚ), y1 := ((cd.y + cd.h : ℤ) : ℚ) }
                 confidence := 7/10
                 checked := some (decide (cd.centerMean < 220)) }
        else none
      else none

/-- See the doc comment above `checkboxOfCandidate`; this is the loop plus the
final `remove_overlapping(checkboxes, iou_threshold=0.3)`. -/
def detect_checkboxes (cands : List CheckboxCandidate) (min_size max_size : ℤ) :
    List Control :=
  remove_overlapping (cands.filterMap (checkboxOfCandidate min_size max_size)) (3/10)

/-- Pixel measurements for one Hough circle candidate of
`detect_radio_buttons`: the rounded center/radius and the fill ratios of the
perimeter-ring mask and of the inner-disc mask (whose radii depend on the
scale factor only through these measured values). -/
structure CircleCandidate where
  cx : ℤ
  cy : ℤ
  r : ℤ
  perimRatio : ℚ
  centerRatio : ℚ
deriving DecidableEq, Repr

/-- `detect_radio_buttons(gray, binary, scale_factor)` of
`detect_controls.py`, from the circle candidates' pixel measurements: bounds
check against the image, visible perimeter (`ratio > 0.25`), hollow
(`< 0.35`) or filled (`> 0.5`) center; ambiguous middles are rejected.
No overlap removal is applied to radio buttons. -/
def detect_radio_buttons (cands : List CircleCandidate) (width height : ℤ) :
    List Control :=
  cands.filterMap (fun c =>
    let x0 : ℤ := c.cx - c.r
    let y0 : ℤ := c.cy - c.r
    let x1 : ℤ := c.cx + c.r
    let y1 : ℤ := c.cy + c.r
    if x0 < 0 ∨ y0 < 0 ∨ width ≤ x1 ∨ height ≤ y1 then none
    else
      let has_border := (1:ℚ)/4 < c.perimRatio
      let is_hollow := c.centerRatio < 7/20
      let is_filled := (1:ℚ)/2 < c.centerRatio
      if has_border ∧ (is_hollow ∨ is_filled) then
        some { ctype := "radio"
               bbox := { x0 := (x0 : ℚ), y0 := (y0 : ℚ), x1 := (x1 : ℚ), y1 := (y1 : ℚ) }
               confidence := pyRoundTo 2 (min (c.perimRatio + 3/10) 1)
               selected := some (decide is_filled)
               centerX := some (c.cx : ℚ), centerY := some (c.cy : ℚ)
               radius := some (c.r : ℚ) }
      else none)

/-- Pixel measurements for one input-box contour candidate of
`detect_input_boxes`: bounding rectangle, polygon vertex count and contour
area (the perimeter is used only inside the approximation epsilon, which the
vertex count already reflects). -/
structure InputBoxCandidate where
  x : ℤ
  y : ℤ
  w : ℤ
  h : ℤ
  approxLen : ℕ
  area : ℚ
deriving DecidableEq, Repr

/-- `detect_input_boxes(gray, binary, min_width, min_height, max_height)` of
`detect_controls.py`, from the contour candidates' pixel measurements:
wide-and-short window, aspect ratio at least 2, area at least 100,
4-8 vertices, extent above 0.3 (which is also the confidence), then overlap
removal at the default IoU threshold 0.5. -/
def detect_input_boxes (cands : List InputBoxCandidate)
    (min_width min_height max_height : ℤ) : List Control :=
  let ibs := cands.filterMap (fun cd =>
    if cd.w < min_width ∨ cd.h < min_height ∨ max_height < cd.h then none
    else
      let aspect : ℚ := if 0 < cd.h then (cd.w : ℚ) / (cd.h : ℚ) else 0
      if aspect < 2 then none
      else if cd.area < 100 then none
      else if 4 ≤ cd.approxLen ∧ cd.approxLen ≤ 8 then
        let extent : ℚ :=
          if 0 < cd.w * cd.h then cd.area / ((cd.w * cd.h : ℤ) : ℚ) else 0
        if 3/10 < extent then
          some { ctype := "input"
                 bbox := { x0 := (cd.x : ℚ), y0 := (cd.y : ℚ)
                           x1 := ((cd.x + cd.w : ℤ) : ℚ), y1 := ((cd.y + cd.h : ℤ) : ℚ) }
                 confidence := pyRoundTo 2 extent }
        else none
      else none)
  remove_overlapping ibs (1/2)

/-- A visual row band in raster space (`detect_row_bands` output). -/
structure Band where
  y0 : ℤ
  y1 : ℤ
deriving DecidableEq, Repr

/-- A horizontal border line segment (`detect_table_borders` output). -/
structure HLine where
  y : ℤ
  x0 : ℤ
  x1 : ℤ
deriving DecidableEq, Repr

/-- A vertical border line segment (`detect_table_borders` output). -/
structure VLine where
  x : ℤ
  y0 : ℤ
  y1 : ℤ
deriving DecidableEq, Repr

/-- The `table_borders` dict. -/
structure TableBorders where
  horizontal : List HLine
  vertical : List VLine
deriving DecidableEq, Repr

/-- The integer position clustering nested in `build_cell_grid_from_lines`:
sort, chain within tolerance of the last cluster element, return truncated
cluster means. -/
def clusterPositionsInt (positions : List ℤ) (tolerance : ℤ) : List ℤ :=
  match sortAsc (fun z : ℤ => (z : ℚ)) positions with
  | [] => []
  | p :: rest =>
    let clusters := rest.foldl (fun (cls : List (List ℤ)) p =>
      match cls with
      | c :: cs => if |p - c.headD 0| ≤ tolerance then (p :: c) :: cs else [p] :: c :: cs
      | [] => [[p]]) [[p]]
    (clusters.map (fun c => pyInt ((c.sum : ℚ) / (c.length : ℚ)))).reverse

/-- One cell of a `CellGrid`.  In the source, `content` is a key added by
`assign_text_to_cells`; here it is a field that the grid builder initializes
empty (`detect_spans` is only ever meaningful on content-assigned grids). -/
structure CellB where
  row : ℕ
  col : ℕ
  bbox : BBox
  content : List Block := []
deriving DecidableEq, Repr

/-- The grid returned by `build_cell_grid_from_lines`. -/
structure CellGrid where
  row_boundaries : List ℤ
  col_boundaries : List ℤ
  num_rows : ℕ
  num_cols : ℕ
  cells : List (List CellB)
deriving DecidableEq, Repr

/-- `build_cell_grid_from_lines(h_lines, v_lines, tolerance)` of
`detect_controls.py`: cluster line positions into canonical boundaries and
build the rectangular cell array; `None` when either line list is empty or
fewer than 2 boundaries survive in either direction. -/
def build_cell_grid_from_lines (h_lines : List HLine) (v_lines : List VLine)
    (tolerance : ℤ) : Option CellGrid :=
  if h_lines.isEmpty || v_lines.isEmpty then none
  else
    let row_boundaries := clusterPositionsInt (h_lines.map (fun l => l.y)) tolerance
    let col_boundaries := clusterPositionsInt (v_lines.map (fun l => l.x)) tolerance
    if row_boundaries.length < 2 ∨ col_boundaries.length < 2 then none
    else
      let rowPairs := row_boundaries.zip row_boundaries.tail
      let colPairs := col_boundaries.zip col_boundaries.tail
      some { row_boundaries := row_boundaries
             col_boundaries := col_boundaries
             num_rows := row_boundaries.length - 1
             num_cols := col_boundaries.length - 1
             cells := rowPairs.enum.map (fun ri =>
               colPairs.enum.map (fun ci =>
                 { row := ri.1, col := ci.1
                   bbox := { x0 := (ci.2.1 : ℚ), y0 := (ri.2.1 : ℚ)
                             x1 := (ci.2.2 : ℚ), y1 := (ri.2.2 : ℚ) } })) }

/-- Try to append the block to the first cell of this row (in order) whose
bbox contains the scaled center; `none` when no cell of the row contains it. -/
def assignBlockRow (b : Block) (cx cy : ℚ) : List CellB → Option (List CellB)
  | [] => none
  | cell :: rest =>
    if cell.bbox.x0 ≤ cx ∧ cx ≤ cell.bbox.x1 ∧ cell.bbox.y0 ≤ cy ∧ cy ≤ cell.bbox.y1 then
      some ({ cell with content := cell.content ++ [b] } :: rest)
    else
      match assignBlockRow b cx cy rest with
      | some rest2 => some (cell :: rest2)
      | none => none

/-- Append the block to the first containing cell in row-major order (the
source's nested loop with the for-else double break). -/
def assignBlockGrid (b : Block) (cx cy : ℚ) : List (List CellB) → List (List CellB)
  | [] => []
  | row :: rows =>
    match assignBlockRow b cx cy row with
    | some row2 => row2 :: rows
    | none => row :: assignBlockGrid b cx cy rows

/-- `assign_text_to_cells(cell_grid, text_blocks, scale_factor)` of
`detect_controls.py`: each block goes to the first cell containing its scaled
center.  With no blocks the grid is returned unchanged (every cell already
has empty content in this representation). -/
def assign_text_to_cells (grid : Option CellGrid) (blocks : List Block) (scale : ℚ) :
    Option CellGrid :=
  match grid with
  | none => none
  | some g =>
    if blocks.isEmpty then some g
    else
      some { g with cells := blocks.foldl (fun cells b =>
        let cx := (b.bbox.x0 * scale + b.bbox.x1 * scale) / 2
        let cy := (b.bbox.y0 * scale + b.bbox.y1 * scale) / 2
        assignBlockGrid b cx cy cells) g.cells }

/-- One inferred span of `detect_spans`. -/
structure SpanInfo where
  row : ℕ
  col : ℕ
  rowspan : ℕ
  colspan : ℕ
  content : List Block
  bbox : BBox
  is_empty : Bool
deriving DecidableEq, Repr

/-- Indexing into the (rectangular) cell array, with a vacuous default that
in-range accesses never reach. -/
def cellAt (cells : List (List CellB)) (r c : ℕ) : CellB :=
  (cells.getD r []).getD c { row := r, col := c, bbox := ⟨0, 0, 0, 0⟩ }

/-- One iteration of the scan of `detect_spans` at cell `(r, c)`:
skip consumed cells; for a non-empty cell extend down over consecutive empty
cells (rowspan) and right over consecutive empty cells (colspan); mark the
whole rowspan-by-colspan rectangle consumed; emit the span record. -/
def detectSpansStep (cells : List (List CellB)) (numRows numCols : ℕ)
    (st : List (ℕ × ℕ) × List SpanInfo) (rc : ℕ × ℕ) :
    List (ℕ × ℕ) × List SpanInfo :=
  if st.1.contains rc then st
  else
    let r := rc.1
    let c := rc.2
    let cell := cellAt cells r c
    let rowspan :=
      if cell.content.isEmpty then 1
      else 1 + ((List.range' (r + 1) (numRows - (r + 1))).takeWhile
                 (fun r2 => (cellAt cells r2 c).content.isEmpty)).length
    let colspan :=
      if cell.content.isEmpty then 1
      else 1 + ((List.range' (c + 1) (numCols - (c + 1))).takeWhile
                 (fun c2 => (cellAt cells r c2).content.isEmpty)).length
    let newConsumed := (List.range' r rowspan).flatMap (fun r2 =>
      (List.range' c colspan).map (fun c2 => (r2, c2)))
    (st.1 ++ newConsumed,
     st.2 ++ [{ row := r, col := c, rowspan := rowspan, colspan := colspan
                content := cell.content, bbox := cell.bbox
                is_empty := cell.content.isEmpty }])

/-- `detect_spans(cell_grid)` of `detect_controls.py`: row-major scan with a
consumed matrix, producing one span record per non-consumed cell. -/
def detect_spans : Option CellGrid → List SpanInfo
  | none => []
  | some g =>
    let cells := g.cells
    let numRows := cells.length
    let numCols := (cells.headD []).length
    let idxs := (List.range numRows).flatMap (fun r =>
      (List.range numCols).map (fun c => (r, c)))
    (idxs.foldl (detectSpansStep cells numRows numCols) ([], [])).2

/-- The set of `(row, col)` cells covered by a span record. -/
def spanCells (s : SpanInfo) : List (ℕ × ℕ) :=
  (List.range' s.row s.rowspan).flatMap (fun r =>
    (List.range' s.col s.colspan).map (fun c => (r, c)))

/-- The `visual_sections` summary carried through the pipeline.  Only its
`total_tables` count is read downstream (`detect_visual_sections` itself is a
pixel-line zone analysis no claim depends on, so its output is taken as a
boundary input). -/
structure VisualSections where
  total_tables : ℕ
deriving DecidableEq, Repr

/-- Whether the vertical center of a block falls inside a visual band after
converting the band from raster to document space. -/
def blockCenterInBand (band : Band) (scale : ℚ) (b : Block) : Bool :=
  decide ((band.y0 : ℚ) / scale ≤ blockYCenter b) &&
    decide (blockYCenter b ≤ (band.y1 : ℚ) / scale)

/-- The per-band body of `assign_blocks_to_bands`: the row for one band, or
`none` when no block center falls inside the band. -/
def bandRow (blocks : List Block) (scale : ℚ) (band : Band) : Option Row :=
  let band_blocks := blocks.filter (blockCenterInBand band scale)
  if band_blocks.isEmpty then none
  else some { blocks := sortAsc (fun b => b.bbox.x0) band_blocks
              y_min := pyRoundTo 2 ((band.y0 : ℚ) / scale)
              y_max := pyRoundTo 2 ((band.y1 : ℚ) / scale)
              source := some "visual_band" }

/-- `assign_blocks_to_bands(blocks, row_bands, scale_factor)` of
`combined_extractor.py`: one row per band containing at least one block
center, blocks sorted by x0; `None` when there are no bands or no band
received a block. -/
def assign_blocks_to_bands (blocks : List Block) (row_bands : List Band)
    (scale : ℚ) : Option (List Row) :=
  if row_bands.isEmpty then none
  else
    let rows := row_bands.filterMap (bandRow blocks scale)
    if rows.isEmpty then none else some rows

/-- Center of a control's bbox converted to document points. -/
def controlCenterPdf (c : Control) (scale : ℚ) : ℚ × ℚ :=
  ((c.bbox.x0 + c.bbox.x1) / 2 / scale, (c.bbox.y0 + c.bbox.y1) / 2 / scale)

/-- The coordinate bucketing of `check_controls_aligned`
(`round(coord / 5) * 5` with tolerance_pt = 5). -/
def bucket5 (q : ℚ) : ℤ := pyRound (q / 5) * 5

/-- Largest multiplicity among the values of `xs` satisfying `ok`
(Python `max((count for x, count in counter.items() if ok x), default=0)`). -/
def maxCountWhere (xs : List ℤ) (ok : ℤ → Bool) : ℕ :=
  ((xs.dedup.filter ok).map (fun x => xs.count x)).foldr max 0

/-- `check_controls_aligned(controls, scale_factor, page_width)` of
`combined_extractor.py` (min_aligned = 3, tolerance_pt = 5): at least 3
controls bucketed to a common x outside the 5 percent left-margin band, or
at least 3 bucketed to a common y (no margin exclusion on y). -/
def check_controls_aligned (controls : List Control) (scale : ℚ)
    (page_width : ℚ) : Bool :=
  if controls.length < 3 then false
  else
    let thr := page_width * (1/20)
    let positions := controls.map (fun c => controlCenterPdf c scale)
    let xbs := positions.map (fun p => bucket5 p.1)
    let ybs := positions.map (fun p => bucket5 p.2)
    decide (3 ≤ maxCountWhere xbs (fun x => decide (thr ≤ (x : ℚ)))) ||
      decide (3 ≤ maxCountWhere ybs (fun _ => true))

/-- `has_label_to_left(control, blocks, scale_factor)` of
`combined_extractor.py` (max_gap_pt = 50): some block on the same row
(y-centers within 10pt) strictly left of the control within a 50pt gap. -/
def has_label_to_left (c : Control) (blocks : List Block) (scale : ℚ) : Bool :=
  let ctrl_x0 := c.bbox.x0 / scale
  let ctrl_y_center := (c.bbox.y0 + c.bbox.y1) / 2 / scale
  blocks.any (fun b =>
    decide (|blockYCenter b - ctrl_y_center| ≤ 10) &&
    decide (b.bbox.x1 < ctrl_x0) &&
    decide (ctrl_x0 - b.bbox.x1 ≤ 50))

/-- The inline-glyph test of `filter_valid_controls`: the control center (in
document points) falls inside a text block's bbox expanded by 5pt
horizontally and 2pt vertically. -/
def controlInsideText (c : Control) (blocks : List Block) (scale : ℚ) : Bool :=
  let p := controlCenterPdf c scale
  blocks.any (fun b =>
    decide (b.bbox.x0 - 5 ≤ p.1) && decide (p.1 ≤ b.bbox.x1 + 5) &&
    decide (b.bbox.y0 - 2 ≤ p.2) && decide (p.2 ≤ b.bbox.y1 + 2))

/-- The size pass of `filter_valid_controls` (min_size_pt = 10): both
dimensions at least 10 document points. -/
def sizeValidControls (raw : List Control) (scale : ℚ) : List Control :=
  raw.filter (fun c =>
    decide (10 ≤ (c.bbox.x1 - c.bbox.x0) / scale) &&
    decide (10 ≤ (c.bbox.y1 - c.bbox.y0) / scale))

/-- `filter_valid_controls(raw_controls, blocks, scale_factor, page_width)`
of `combined_extractor.py`: size floor, then either the grid-alignment
override (keep all size-valid controls except inline ones) or the strict
filter (drop inline ones and left-margin controls with no label to the
left). -/
def filter_valid_controls (raw : List Control) (blocks : List Block)
    (scale : ℚ) (page_width : ℚ) : List Control :=
  let thr := page_width * (1/20)
  let size_valid := sizeValidControls raw scale
  if check_controls_aligned size_valid scale page_width then
    size_valid.filter (fun c => !(controlInsideText c blocks scale))
  else
    size_valid.filter (fun c =>
      !(controlInsideText c blocks scale) &&
      !(decide ((controlCenterPdf c scale).1 < thr) &&
        !(has_label_to_left c blocks scale)))

/-- `compute_control_features(control, scale_factor)` of
`combined_extractor.py`. -/
def compute_control_features (c : Control) (scale : ℚ) : Features :=
  let w := c.bbox.x1 - c.bbox.x0
  let h := c.bbox.y1 - c.bbox.y0
  { width_px := w
    height_px := h
    aspect := if 0 < h then pyRoundTo 2 (w / h) else 1
    width_pt := pyRoundTo 1 (w / scale)
    height_pt := pyRoundTo 1 (h / scale) }

/-- A control after label mapping: the control dict plus `pdf_bbox` and the
optional label keys. -/
structure MappedControl where
  ctrl : Control
  pdf_bbox : BBox
  label_block_id : Option ℕ := none
  label_text : Option String := none
deriving DecidableEq, Repr

/-- The candidate condition of the label search in `map_controls_to_blocks`:
the block passes the left/row screen and ends strictly left of the control's
left edge (positive distance). -/
def leftLabelCandidate (pdf_x0 pdf_y0 : ℚ) (b : Block) : Prop :=
  b.bbox.x1 < pdf_x0 + 20 ∧ |b.bbox.y0 - pdf_y0| < 15 ∧ 0 < pdf_x0 - b.bbox.x1

instance (pdf_x0 pdf_y0 : ℚ) (b : Block) :
    Decidable (leftLabelCandidate pdf_x0 pdf_y0 b) := by
  unfold leftLabelCandidate; infer_instance

/-- One step of the best-block search loop of `map_controls_to_blocks`:
the left/row screen, then the strict `0 < dist < best_distance` update. -/
def blbStep (pdf_x0 pdf_y0 : ℚ) (best : Option (Block × ℚ)) (b : Block) :
    Option (Block × ℚ) :=
  if decide (b.bbox.x1 < pdf_x0 + 20) && decide (|b.bbox.y0 - pdf_y0| < 15) then
    let dist := pdf_x0 - b.bbox.x1
    match best with
    | none => if 0 < dist then some (b, dist) else none
    | some bd => if 0 < dist ∧ dist < bd.2 then some (b, dist) else some bd
  else best

/-- The best-block search loop of `map_controls_to_blocks`: fold over the
blocks keeping the first strictly-closer candidate (ties keep the earlier
block; the initial best distance is infinity, modelled by `none`). -/
def bestLeftBlock (blocks : List Block) (pdf_x0 pdf_y0 : ℚ) : Option Block :=
  (blocks.foldl (blbStep pdf_x0 pdf_y0) none).map Prod.fst

/-- The per-control body of `map_controls_to_blocks` (the source also
computes the raster center `ctrl_cx`/`ctrl_cy` but never uses it). -/
def mapControl (blocks : List Block) (scale : ℚ) (c : Control) : MappedControl :=
  let pdf_x0 := c.bbox.x0 / scale
  let pdf_y0 := c.bbox.y0 / scale
  let base : MappedControl :=
    { ctrl := c
      pdf_bbox := { x0 := pyRoundTo 2 pdf_x0, y0 := pyRoundTo 2 pdf_y0
                    x1 := pyRoundTo 2 (c.bbox.x1 / scale)
                    y1 := pyRoundTo 2 (c.bbox.y1 / scale) } }
  match bestLeftBlock blocks pdf_x0 pdf_y0 with
  | some b => { base with label_block_id := some b.id, label_text := some b.text }
  | none => base

/-- `map_controls_to_blocks(controls, blocks, scale_factor)` of
`combined_extractor.py`. -/
def map_controls_to_blocks (controls : List Control) (blocks : List Block)
    (scale : ℚ) : List MappedControl :=
  controls.map (mapControl blocks scale)

/-- The image-processing boundary for one rendered page: image dimensions in
pixels and the per-candidate pixel measurements feeding each detector, plus
the outputs of the purely pixel-level stages (`detect_table_borders`,
`detect_row_bands`, `detect_visual_sections`). -/
structure ImageAnalysis where
  width : ℤ
  height : ℤ
  cbCands : List CheckboxCandidate
  circCands : List CircleCandidate
  ibCands : List InputBoxCandidate
  hLines : List HLine
  vLines : List VLine
  rowBands : List Band
  visualSections : Option VisualSections
deriving DecidableEq, Repr

/-- The result dict of `detect_all_controls` (the fields read downstream). -/
structure ControlsData where
  scale_factor : ℚ
  checkboxes : List Control
  radio_buttons : List Control
  input_boxes : List Control
  table_borders : TableBorders
  row_bands : List Band
  cell_grid : Option CellGrid
  visual_sections : Option VisualSections
deriving DecidableEq, Repr

/-- `detect_all_controls(image_path)` of `detect_controls.py`: compute the
resolution scale factor (`height / 842`), run each detector with scaled
parameters, and assemble the result dict.  The published `scale_factor` is
rounded to 2 decimals; the raw value feeds the detector parameters. -/
def detect_all_controls (a : ImageAnalysis) : ControlsData :=
  let scale : ℚ := (a.height : ℚ) / 842
  { scale_factor := pyRoundTo 2 scale
    checkboxes := detect_checkboxes a.cbCands (pyInt (8 * scale)) (pyInt (30 * scale))
    radio_buttons := detect_radio_buttons a.circCands a.width a.height
    input_boxes := detect_input_boxes a.ibCands (pyInt (50 * scale))
      (pyInt (12 * scale)) (pyInt (40 * scale))
    table_borders := { horizontal := a.hLines, vertical := a.vLines }
    row_bands := a.rowBands
    cell_grid := build_cell_grid_from_lines a.hLines a.vLines (pyInt (10 * scale))
    visual_sections := a.visualSections }

/-- The row-source selection of the form branch of `extract_combined`
(visual rows are used only when truthy and of length at least 3, else the
text-proximity rows of `extract_pdf` are the fallback). -/
def selectFormRows (blocks : List Block) (row_bands : List Band) (scale : ℚ)
    (page_width : ℚ) (page_rows : List Row) (stats : Option StatsV) :
    List Row × String :=
  match assign_blocks_to_bands blocks row_bands scale with
  | some vr =>
    if !vr.isEmpty && decide (3 ≤ vr.length) then
      (classify_rows vr page_width stats, "visual_bands")
    else (page_rows, "text_y_proximity")
  | none => (page_rows, "text_y_proximity")

/-- The `text` section of the combined record.  The `row_source` key is
present only on form pages. -/
structure TextSection where
  blocks : List Block
  rows : Option (List Row)
  row_source : Option String
  row_groups : Option (List RowGroup)
  columns : List ℚ
  stats : Option StatsV
deriving DecidableEq, Repr

/-- The `controls` section of the combined record. -/
structure ControlsSection where
  items : List MappedControl
  scale_factor : ℚ
deriving DecidableEq, Repr

/-- The `summary` section.  `visual_tables` is a key only on form pages;
`row_types` is the per-type histogram on form pages and null on text pages;
`note` appears only on text pages. -/
structure Summary where
  total_blocks : ℕ
  total_rows : ℕ
  total_row_groups : ℕ
  total_controls : ℕ
  visual_tables : Option ℕ
  row_types : Option (List (String × ℕ))
  note : Option String
deriving DecidableEq, Repr

/-- The combined page record (`source` is the input path and is omitted;
`table_borders`/`visual_sections` are keys only on form pages). -/
structure PageRecord where
  page_number : ℤ
  page_type : String
  classification : Classification
  dim_width : ℚ
  dim_height : ℚ
  text : TextSection
  controls : ControlsSection
  table_borders : Option TableBorders
  visual_sections : Option VisualSections
  summary : Summary
deriving DecidableEq, Repr

/-- The result of `extract_combined`: either the structured error record
(only an `error` key) or a full page record. -/
inductive CombinedResult where
  | error (msg : String)
  | record (r : PageRecord)
deriving DecidableEq, Repr

/-- One update of the row-type histogram (Python dict counting). -/
def histAdd (h : List (String × ℕ)) (k : String) : List (String × ℕ) :=
  if h.any (fun p => p.1 == k) then
    h.map (fun p => if p.1 == k then (p.1, p.2 + 1) else p)
  else h ++ [(k, 1)]

/-- The `row_types` histogram of the form-branch summary. -/
def rowTypeHistogram (rows : List Row) : List (String × ℕ) :=
  rows.foldl (fun h r => histAdd h (r.rtype.getD "unknown")) []

/-- `extract_combined(pdf_path, page_num)` of `combined_extractor.py`:
extract the text layout, bail out with the error record when no pages were
extracted, detect controls on the rendered image (the `ImageAnalysis`
argument is that rendering), filter them, classify the page, and branch into
the form pipeline (rows, row groups, grids, control mapping) or the text
short-cut. -/
def extract_combined (doc : List PageDoc) (page_num : ℤ) (a : ImageAnalysis) :
    CombinedResult :=
  match extract_pdf doc page_num with
  | [] => .error "No pages extracted"
  | page_layout :: _ =>
    let blocks := page_layout.blocks
    let page_width := page_layout.width
    let page_height := page_layout.height
    let controls_data := detect_all_controls a
    let scale_factor := controls_data.scale_factor
    let raw_controls := controls_data.checkboxes
    let valid_controls := filter_valid_controls raw_controls blocks scale_factor page_width
    let control_count := valid_controls.length
    let columns := page_layout.columns
    let classification :=
      classify_page_type blocks columns page_width page_height control_count
    let page_type := classification.page_type
    if page_type == "form" then
      let sel := selectFormRows blocks controls_data.row_bands scale_factor
        page_width page_layout.rows page_layout.stats
      let rows := sel.1
      let row_source := sel.2
      let row_groups := (group_consecutive_rows rows).map (fun g =>
        match apply_grid_to_row_group rows g.row_indices with
        | some grid => { g with grid := some grid }
        | none => g)
      let all_controls := valid_controls.map (fun cb =>
        { cb with features := some (compute_control_features cb scale_factor) })
      let mapped_controls := map_controls_to_blocks all_controls blocks scale_factor
      .record
        { page_number := page_num
          page_type := page_type
          classification := classification
          dim_width := page_width, dim_height := page_height
          text := { blocks := blocks, rows := some rows
                    row_source := some row_source
                    row_groups := some row_groups, columns := columns
                    stats := page_layout.stats }
          controls := { items := mapped_controls, scale_factor := scale_factor }
          table_borders := some controls_data.table_borders
          visual_sections := controls_data.visual_sections
          summary := { total_blocks := blocks.length
                       total_rows := rows.length
                       total_row_groups := row_groups.length
                       total_controls := mapped_controls.length
                       visual_tables := some (match controls_data.visual_sections with
                         | some vs => vs.total_tables
                         | none => 0)
                       row_types := some (rowTypeHistogram rows)
                       note := none } }
    else
      .record
        { page_number := page_num
          page_type := page_type
          classification := classification
          dim_width := page_width, dim_height := page_height
          text := { blocks := blocks, rows := none, row_source := none
                    row_groups := none, columns := columns
                    stats := page_layout.stats }
          controls := { items := [], scale_factor := scale_factor }
          table_borders := none
          visual_sections := none
          summary := { total_blocks := blocks.length, total_rows := 0
                       total_row_groups := 0, total_controls := 0
                       visual_tables := none, row_types := none
                       note := some "Row grouping skipped for text page" } }

/-- Whether a combined result is the structured error record. -/
def isErrorResult : CombinedResult → Bool
  | .error _ => true
  | .record _ => false

/-- The page type of a combined result, when it is a record. -/
def resultPageType : CombinedResult → Option String
  | .error _ => none
  | .record r => some r.page_type

/-- The classification reason of a combined result, when it is a record. -/
def resultReason : CombinedResult → Option String
  | .error _ => none
  | .record r => some r.classification.reason

/-- The `row_source` tag of a combined result, when present. -/
def resultRowSource : CombinedResult → Option String
  | .error _ => none
  | .record r => r.text.row_source

/-- The mapped control items of a combined result (empty on the error
record). -/
def resultItems : CombinedResult → List MappedControl
  | .error _ => []
  | .record r => r.controls.items

/-! ### Shared lemmas about the embedded operations -/

theorem mem_insertAsc (key : α → ℚ) (x y : α) (l : List α) :
    y ∈ insertAsc key x l ↔ y = x ∨ y ∈ l := by
  induction l with
  | nil => simp [insertAsc]
  | cons z zs ih =>
    simp only [insertAsc]
    split
    · simp [List.mem_cons]
    · simp only [List.mem_cons, ih]
      tauto

theorem mem_sortAsc (key : α → ℚ) (x : α) (l : List α) :
    x ∈ sortAsc key l ↔ x ∈ l := by
  induction l with
  | nil => exact Iff.rfl
  | cons z zs ih =>
    show x ∈ insertAsc key z (sortAsc key zs) ↔ _
    rw [mem_insertAsc]
    simp [ih, List.mem_cons]

theorem mem_insertDesc (key : α → ℚ) (x y : α) (l : List α) :
    y ∈ insertDesc key x l ↔ y = x ∨ y ∈ l := by
  induction l with
  | nil => simp [insertDesc]
  | cons z zs ih =>
    simp only [insertDesc]
    split
    · simp [List.mem_cons]
    · simp only [List.mem_cons, ih]
      tauto

theorem mem_sortDesc (key : α → ℚ) (x : α) (l : List α) :
    x ∈ sortDesc key l ↔ x ∈ l := by
  induction l with
  | nil => exact Iff.rfl
  | cons z zs ih =>
    show x ∈ insertDesc key z (sortDesc key zs) ↔ _
    rw [mem_insertDesc]
    simp [ih, List.mem_cons]

theorem interArea_comm (b1 b2 : BBox) : interArea b1 b2 = interArea b2 b1 := by
  unfold interArea
  rw [min_comm b1.x1 b2.x1, max_comm b1.x0 b2.x0, min_comm b1.y1 b2.y1,
    max_comm b1.y0 b2.y0]

theorem iouQ_comm (b1 b2 : BBox) : iouQ b1 b2 = iouQ b2 b1 := by
  unfold iouQ
  rw [interArea_comm, add_comm (bboxArea b1) (bboxArea b2), max_comm b1.x0 b2.x0,
    min_comm b1.x1 b2.x1, max_comm b1.y0 b2.y0, min_comm b1.y1 b2.y1]

theorem keepFold_subset (t : ℚ) (l : List Control) :
    ∀ (acc : List Control) (c : Control),
      c ∈ l.foldl (keepStep t) acc → c ∈ acc ∨ c ∈ l := by
  induction l with
  | nil => exact fun acc c h => Or.inl h
  | cons b bs ih =>
    intro acc c h
    rcases ih _ c h with h1 | h1
    · unfold keepStep at h1
      split at h1
      · exact Or.inl h1
      · rcases List.mem_append.mp h1 with h2 | h2
        · exact Or.inl h2
        · simp only [List.mem_singleton] at h2
          exact Or.inr (h2 ▸ List.mem_cons_self b bs)
    · exact Or.inr (List.mem_cons_of_mem b h1)

theorem mem_remove_overlapping {c : Control} {l : List Control} {t : ℚ}
    (h : c ∈ remove_overlapping l t) : c ∈ l := by
  unfold remove_overlapping at h
  rcases keepFold_subset t _ [] c h with h1 | h1
  · cases h1
  · exact (mem_sortDesc _ c l).mp h1

theorem keepFold_pairwise (t : ℚ) (l : List Control) :
    ∀ acc : List Control,
      acc.Pairwise (fun a b => iouQ a.bbox b.bbox ≤ t) →
      (l.foldl (keepStep t) acc).Pairwise (fun a b => iouQ a.bbox b.bbox ≤ t) := by
  induction l with
  | nil => exact fun acc h => h
  | cons c cs ih =>
    intro acc h
    refine ih _ ?_
    unfold keepStep
    split
    · exact h
    · next hc =>
      rw [List.pairwise_append]
      refine ⟨h, List.pairwise_singleton _ _, ?_⟩
      intro a ha b hb
      simp only [List.mem_singleton] at hb
      subst hb
      simp only [List.any_eq_true, decide_eq_true_eq, not_exists, not_and, not_lt] at hc
      rw [iouQ_comm]
      exact hc a ha

/-- The dedup invariant for `remove_overlapping`: every pair of kept controls
has IoU at most the threshold. -/
theorem pairwise_remove_overlapping (l : List Control) (t : ℚ) :
    (remove_overlapping l t).Pairwise (fun a b => iouQ a.bbox b.bbox ≤ t) :=
  keepFold_pairwise t _ [] List.Pairwise.nil

theorem le_foldr_max {n : ℕ} (hn : 0 < n) (l : List ℕ) :
    n ≤ l.foldr max 0 ↔ ∃ m ∈ l, n ≤ m := by
  induction l with
  | nil =>
    simp only [List.foldr_nil, List.not_mem_nil]
    constructor
    · intro h; omega
    · rintro ⟨m, hm, _⟩; cases hm
  | cons a as ih =>
    simp only [List.foldr_cons, le_max_iff, ih, List.mem_cons]
    constructor
    · rintro (h | ⟨m, hm, h⟩)
      · exact ⟨a, Or.inl rfl, h⟩
      · exact ⟨m, Or.inr hm, h⟩
    · rintro ⟨m, hm | hm, h⟩
      · exact Or.inl (hm ▸ h)
      · exact Or.inr ⟨m, hm, h⟩

/-! ### Concrete scenario data -/

/-- Shorthand for a concrete text block. -/
def mkBlock (i : ℕ) (x0 y0 x1 y1 : ℚ) (t : String) : Block :=
  { id := i, text := t, bbox := { x0 := x0, y0 := y0, x1 := x1, y1 := y1 }
    font_size := 10, is_bold := false }

/-- Shorthand for a concrete raster-space checkbox control. -/
def mkCtrl (x0 y0 x1 y1 : ℚ) : Control :=
  { ctype := "checkbox", bbox := { x0 := x0, y0 := y0, x1 := x1, y1 := y1 }
    confidence := 7/10, checked := some false }

/-- Placeholder control for out-of-range list access in closed statements. -/
def dummyControl : Control :=
  { ctype := "", bbox := ⟨0, 0, 0, 0⟩, confidence := 0 }

/-- Placeholder span for out-of-range list access in closed statements. -/
def dummySpan : SpanInfo :=
  { row := 0, col := 0, rowspan := 0, colspan := 0, content := [], bbox := ⟨0, 0, 0, 0⟩
    is_empty := true }

/-- Placeholder mapped control for out-of-range list access. -/
def dummyMapped : MappedControl :=
  { ctrl := dummyControl, pdf_bbox := ⟨0, 0, 0, 0⟩ }

/-- An image analysis with no detections at all. -/
def emptyAnalysis : ImageAnalysis :=
  { width := 595, height := 842, cbCands := [], circCands := [], ibCands := []
    hLines := [], vLines := [], rowBands := [], visualSections := none }

/-- A one-page document whose page has zero text blocks. -/
def docNoBlocks : List PageDoc := [{ blocks := [], width := 600, height := 800 }]

/-- Two sparse label blocks (the page classifies as form by the default
rule: no controls, low density, no alignment, narrow blocks). -/
def sparseBlocks : List Block :=
  [mkBlock 0 50 100 150 110 "Name", mkBlock 1 50 300 150 310 "Date"]

/-- The one-page document holding `sparseBlocks`. -/
def sparseDoc : List PageDoc := [{ blocks := sparseBlocks, width := 600, height := 800 }]

/-- Analysis with three detected visual bands of which only the first two
contain a block center of `sparseBlocks` (the third lies in empty space). -/
def threeBandsAnalysis : ImageAnalysis :=
  { emptyAnalysis with rowBands :=
      [{ y0 := 95, y1 := 115 }, { y0 := 295, y1 := 315 }, { y0 := 500, y1 := 520 }] }

/-- Three label blocks, one per band of `threeFullBandsAnalysis`. -/
def threeRowBlocks : List Block :=
  [mkBlock 0 50 100 150 110 "Name", mkBlock 1 50 300 150 310 "Date",
   mkBlock 2 50 500 150 510 "City"]

/-- The one-page document holding `threeRowBlocks`. -/
def threeRowDoc : List PageDoc :=
  [{ blocks := threeRowBlocks, width := 600, height := 800 }]

/-- Analysis with three visual bands, each containing one block center of
`threeRowBlocks`. -/
def threeFullBandsAnalysis : ImageAnalysis :=
  { emptyAnalysis with rowBands :=
      [{ y0 := 95, y1 := 115 }, { y0 := 295, y1 := 315 }, { y0 := 495, y1 := 515 }] }

/-- Two overlapping, individually valid circle candidates (clear border,
hollow center). -/
def twinCircles : List CircleCandidate :=
  [{ cx := 100, cy := 100, r := 10, perimRatio := 1/2, centerRatio := 1/10 },
   { cx := 102, cy := 100, r := 10, perimRatio := 1/2, centerRatio := 1/10 }]

/-- Horizontal border lines of a 3-row, 2-column table. -/
def gridH : List HLine :=
  [{ y := 0, x0 := 0, x1 := 80 }, { y := 30, x0 := 0, x1 := 80 },
   { y := 60, x0 := 0, x1 := 80 }, { y := 90, x0 := 0, x1 := 80 }]

/-- Vertical border lines of the same table. -/
def gridV : List VLine :=
  [{ x := 0, y0 := 0, y1 := 90 }, { x := 40, y0 := 0, y1 := 90 },
   { x := 80, y0 := 0, y1 := 90 }]

/-- Block A in cell (0,1) and block B in cell (1,0) of the 3x2 grid. -/
def gridBlocks : List Block := [mkBlock 0 50 5 70 25 "A", mkBlock 1 10 35 30 55 "B"]

/-- The content-assigned 3x2 cell grid with A at (0,1) and B at (1,0). -/
def overlapGrid : Option CellGrid :=
  assign_text_to_cells (build_cell_grid_from_lines gridH gridV 10) gridBlocks 1

/-! ### C5: IoU deduplication -/

/-- C5 counterexample: radio-button detections are never deduplicated.  Two
individually valid overlapping circle candidates both survive
`detect_radio_buttons`, and the two kept radio controls have IoU 9/11, above
both configured thresholds (0.3 and 0.5), refuting the claim that
deduplication applies across all detections of each control type with
pairwise IoU at most the threshold. -/
theorem C5_radio_dedup_counterexample :
    (detect_radio_buttons twinCircles 1000 842).length = 2 ∧
    ((detect_radio_buttons twinCircles 1000 842).getD 0 dummyControl).ctype = "radio" ∧
    ((detect_radio_buttons twinCircles 1000 842).getD 1 dummyControl).ctype = "radio" ∧
    iouQ ((detect_radio_buttons twinCircles 1000 842).getD 0 dummyControl).bbox
        ((detect_radio_buttons twinCircles 1000 842).getD 1 dummyControl).bbox
      = 9/11 ∧
    (1:ℚ)/2 < 9/11 := by decide

/-- C5 (amended): deduplication applies to checkbox and input-box detections
(sorted by confidence descending, a detection kept only when its IoU with
every kept one is at most the threshold), so every pair of kept checkboxes
has IoU at most 0.3 and every pair of kept input boxes IoU at most 0.5;
radio-button detections are returned without deduplication. -/
theorem C5_dedup_invariant (cb : List CheckboxCandidate) (ib : List InputBoxCandidate)
    (ms mx mw mh mH : ℤ) :
    (detect_checkboxes cb ms mx).Pairwise (fun a b => iouQ a.bbox b.bbox ≤ 3/10) ∧
    (detect_input_boxes ib mw mh mH).Pairwise (fun a b => iouQ a.bbox b.bbox ≤ 1/2) :=
  ⟨pairwise_remove_overlapping _ _, pairwise_remove_overlapping _ _⟩

/-! ### C6: span non-overlap -/

/-- C6: the span non-overlap claim is right and the code is wrong.  On the
3x2 grid with content A at (0,1) and B at (1,0), `detect_spans` emits the
span anchored at (0,1) with rowspan 3 and the span anchored at (1,0) with
rowspan 2 and colspan 2, and both spans cover cell (1,1) (and cell (2,1)):
the scan marks cells consumed but ignores consumed-ness while extending
rowspan/colspan over empty cells, so a consumed cell is double-counted. -/
theorem C6_span_overlap_failure :
    (detect_spans overlapGrid).length = 3 ∧
    ((detect_spans overlapGrid).getD 1 dummySpan).row = 0 ∧
    ((detect_spans overlapGrid).getD 1 dummySpan).col = 1 ∧
    ((detect_spans overlapGrid).getD 1 dummySpan).rowspan = 3 ∧
    ((detect_spans overlapGrid).getD 2 dummySpan).row = 1 ∧
    ((detect_spans overlapGrid).getD 2 dummySpan).col = 0 ∧
    ((detect_spans overlapGrid).getD 2 dummySpan).rowspan = 2 ∧
    ((detect_spans overlapGrid).getD 2 dummySpan).colspan = 2 ∧
    (spanCells ((detect_spans overlapGrid).getD 1 dummySpan)).contains (1, 1) = true ∧
    (spanCells ((detect_spans overlapGrid).getD 2 dummySpan)).contains (1, 1) = true := by
  decide

/-! ### C7: page-classifier decision chain -/

/-- The decision chain of the page classifier as the claim states it
(written from the spec's words, for comparison with `classify_page_type`):
(a) at least 2 controls: form; (b) high density, no controls: text;
(c) at least 2 estimated columns, no controls: text; (d) strong alignment
with moderate density: form; (e) wide average blocks with nonzero density:
text; (f) default: form.  First match wins; a pure function of the five
signals. -/
def classifySignalsSpec (control_count column_count : ℕ)
    (text_density width_ratio alignment_score : ℚ) : String × String :=
  if 2 ≤ control_count then ("form", "has_controls")
  else if 5 < text_density ∧ control_count = 0 then ("text", "high_density_no_controls")
  else if 2 ≤ column_count ∧ control_count = 0 then ("text", "multi_column")
  else if (2:ℚ)/5 < alignment_score ∧ width_ratio < (3:ℚ)/5 ∧ text_density < 5 then
    ("form", "grid_alignment")
  else if (7:ℚ)/10 < width_ratio ∧ (1:ℚ)/2 < text_density then ("text", "prose_layout")
  else ("form", "default")

/-- C7 counterexample: with an empty block list and 2 controls,
`classify_page_type` returns text with reason "no blocks" instead of the
form that rule (a) of the claimed chain would demand, because the no-blocks
early return precedes every rule of the chain. -/
theorem C7_chain_counterexample :
    (classify_page_type [] [] 600 800 2).page_type = "text" ∧
    (classify_page_type [] [] 600 800 2).page_type ≠ "form" ∧
    (classify_page_type [] [] 600 800 2).reason = "no blocks" := by decide

/-- C7 (amended): on a page with at least one block, `classify_page_type`
applies exactly the claimed priority chain (a)-(f), first match wins, and
the resulting (page_type, reason) pair is a pure function of the five
declared signals; a page with no blocks short-circuits to
(text, "no blocks") before rule (a). -/
theorem C7_page_classifier_chain (blocks : List Block) (columns : List ℚ)
    (pw ph : ℚ) (cc : ℕ) (hb : blocks ≠ []) :
    ((classify_page_type blocks columns pw ph cc).page_type,
      (classify_page_type blocks columns pw ph cc).reason) =
      classifySignalsSpec cc (columnCountSignal blocks columns)
        (textDensitySignal blocks pw ph) (widthRatioSignal blocks pw)
        (alignmentSignal blocks) := by
  have hfalse : blocks.isEmpty = false := by
    simp [List.isEmpty_eq_false, hb]
  simp only [classify_page_type, classifySignalsSpec, hfalse, Bool.false_eq_true,
    if_false]
  simp only [Nat.pos_iff_ne_zero, not_not]
  split_ifs <;> rfl

/-- C7 witness: the amended theorem applied to a concrete nonempty page:
two sparse label blocks with no controls classify as form by the default
rule. -/
theorem C7_chain_witness :
    ((classify_page_type sparseBlocks [] 600 800 0).page_type,
      (classify_page_type sparseBlocks [] 600 800 0).reason) =
      classifySignalsSpec 0 (columnCountSignal sparseBlocks [])
        (textDensitySignal sparseBlocks 600 800) (widthRatioSignal sparseBlocks 600)
        (alignmentSignal sparseBlocks) ∧
    (classify_page_type sparseBlocks [] 600 800 0).page_type = "form" ∧
    (classify_page_type sparseBlocks [] 600 800 0).reason = "default" :=
  ⟨C7_page_classifier_chain sparseBlocks [] 600 800 0 (by decide), by decide, by decide⟩

/-! ### C8: totality on degenerate input -/

/-- C8: every geometric stage returns its degenerate result on zero-length
input: row grouping, position clustering, column detection, cell-grid
building (either line list empty), span detection, dedup, and
classification (which yields the no-blocks record with empty signals);
all are total functions, so none can raise. -/
theorem C8_degenerate_totality (v : List VLine) (h : List HLine) (t : ℤ) (tq : ℚ)
    (cols : List ℚ) (pw ph : ℚ) (cc : ℕ) :
    group_into_rows [] = [] ∧
    cluster_positions [] tq = [] ∧
    detect_columns [] = [] ∧
    build_cell_grid_from_lines [] v t = none ∧
    build_cell_grid_from_lines h [] t = none ∧
    detect_spans none = [] ∧
    remove_overlapping [] tq = [] ∧
    classify_page_type [] cols pw ph cc =
      { page_type := "text", signals := none, reason := "no blocks" } := by
  refine ⟨rfl, rfl, rfl, rfl, ?_, rfl, rfl, rfl⟩
  simp [build_cell_grid_from_lines]

/-! ### C1: the empty-content error record -/

/-- C1 counterexample: a page that exists but has zero text blocks does not
produce the error record; `extract_pdf` still returns one page entry, so
`extract_combined` goes on to classify it (text, "no blocks") and returns a
full record. -/
theorem C1_zero_blocks_counterexample :
    isErrorResult (extract_combined docNoBlocks 1 emptyAnalysis) = false ∧
    resultPageType (extract_combined docNoBlocks 1 emptyAnalysis) = some "text" ∧
    resultReason (extract_combined docNoBlocks 1 emptyAnalysis) = some "no blocks" := by
  decide

/-- C1 (amended): `extract_combined` returns the error record (which carries
nothing but the error message) exactly when `extract_pdf` yields no page
entries, i.e. exactly when the requested 1-indexed page number is out of
range; a page with zero text blocks still yields a full record. -/
theorem C1_error_iff_page_out_of_range (doc : List PageDoc) (page_num : ℤ)
    (a : ImageAnalysis) :
    isErrorResult (extract_combined doc page_num a) = true ↔
      ¬ (1 ≤ page_num ∧ page_num ≤ (doc.length : ℤ)) := by
  have hiff : isErrorResult (extract_combined doc page_num a) = true ↔
      extract_pdf doc page_num = [] := by
    cases h : extract_pdf doc page_num with
    | nil => simp [extract_combined, h, isErrorResult]
    | cons p rest =>
      simp only [extract_combined, h]
      constructor
      · intro hh
        split at hh <;> simp [isErrorResult] at hh
      · intro hh
        exact absurd hh (by simp)
  rw [hiff]
  simp only [extract_pdf]
  by_cases h0 : (0:ℤ) ≤ page_num - 1
  · rw [if_pos h0]
    cases hg : doc.get? (page_num - 1).toNat with
    | some pd =>
      simp only [ne_eq]
      constructor
      · intro hh
        exact absurd hh (by simp)
      · intro hh
        exfalso
        rcases List.get?_eq_some.mp hg with ⟨hlt, _⟩
        omega
    | none =>
      have hge := List.get?_eq_none.mp hg
      constructor
      · intro _ hcon
        omega
      · intro _
        rfl
  · rw [if_neg h0]
    constructor
    · intro _ hcon
      omega
    · intro _
      rfl

/-! ### C10: grid-cell mapping keeps the last writer -/

theorem getLast?_cons_or (a : α) (l : List α) :
    (a :: l).getLast? = (l.getLast?).or (some a) := by
  rw [List.getLast?_cons]
  cases l.getLast? <;> rfl

theorem placeBlock_length (columns : List (ℚ × ℚ)) (bs : List Block) :
    ∀ cells : List (Option Block),
      (bs.foldl (placeBlock columns) cells).length = cells.length := by
  induction bs with
  | nil => exact fun _ => rfl
  | cons b bs ih =>
    intro cells
    rw [List.foldl_cons]
    rw [ih (placeBlock columns cells b)]
    unfold placeBlock
    cases firstOverlapCol b columns with
    | some i => exact List.length_set cells i _
    | none => rfl

theorem placeBlockFold_get? (columns : List (ℚ × ℚ)) (j : ℕ) (bs : List Block) :
    ∀ (cells : List (Option Block)) (v : Option Block),
      cells.get? j = some v →
      (bs.foldl (placeBlock columns) cells).get? j =
        some (((bs.filter (fun b => firstOverlapCol b columns == some j)).getLast?).or v) := by
  induction bs with
  | nil =>
    intro cells v hv
    simpa using hv
  | cons b bs ih =>
    intro cells v hv
    rw [List.foldl_cons, List.filter_cons]
    by_cases hb : firstOverlapCol b columns = some j
    · have hp : (firstOverlapCol b columns == some j) = true := by simp [hb]
      rw [if_pos hp]
      have hcells : placeBlock columns cells b = cells.set j (some b) := by
        unfold placeBlock
        rw [hb]
      have hv2 : (cells.set j (some b)).get? j = some (some b) := by
        rw [List.get?_set_eq, hv]
        rfl
      rw [hcells, ih _ _ hv2, getLast?_cons_or, Option.or_assoc, Option.or_some]
    · have hp : (firstOverlapCol b columns == some j) = false := by simp [hb]
      rw [if_neg (by simp [hp])]
      have hv2 : (placeBlock columns cells b).get? j = some v := by
        unfold placeBlock
        cases hfo : firstOverlapCol b columns with
        | none => exact hv
        | some i =>
          have hne : i ≠ j := fun e => hb (by rw [hfo, e])
          rw [List.get?_set_ne _ _ hne]
          exact hv
      exact ih _ _ hv2

/-- C10: when a row is mapped onto a grid the cell array has one slot per
column holding at most one block, and the block stored in column `j` is
exactly the last block (in block order) whose first overlapping column is
`j` — so when two blocks share a first overlapping column the later one
replaces the earlier one, and the mapped row can hold strictly fewer blocks
than the input row. -/
theorem C10_grid_cell_last_writer (row : Row) (columns : List (ℚ × ℚ)) (j : ℕ)
    (hj : j < columns.length) :
    (map_row_to_grid row columns).length = columns.length ∧
    (map_row_to_grid row columns).get? j =
      some ((row.blocks.filter
        (fun b => firstOverlapCol b columns == some j)).getLast?) := by
  have hne : columns.isEmpty = false := by
    cases columns
    · simp at hj
    · rfl
  have hrepl : (List.replicate columns.length (none : Option Block)).get? j
      = some none := by
    simp [List.get?_eq_getElem?, List.getElem?_replicate, hj]
  constructor
  · unfold map_row_to_grid
    rw [hne]
    simp only [Bool.false_eq_true, if_false]
    rw [placeBlock_length, List.length_replicate]
  · unfold map_row_to_grid
    rw [hne]
    simp only [Bool.false_eq_true, if_false]
    rw [placeBlockFold_get? columns j row.blocks _ none hrepl]
    cases (row.blocks.filter (fun b => firstOverlapCol b columns == some j)).getLast? <;>
      rfl

/-- A two-column grid for the C10 witness. -/
def demoCols : List (ℚ × ℚ) := [(0, 100), (100, 200)]

/-- A row whose two blocks both overlap column 0 first. -/
def demoRow : Row :=
  { blocks := [mkBlock 0 10 0 50 10 "a", mkBlock 1 20 0 60 10 "b"]
    y_min := 0, y_max := 10 }

/-- C10 witness: on a concrete row whose two blocks share first overlapping
column 0, the mapped cells keep only the later block, so the mapped row
holds strictly fewer blocks than the input row. -/
theorem C10_grid_cell_witness :
    (map_row_to_grid demoRow demoCols).get? 0 =
      some ((demoRow.blocks.filter
        (fun b => firstOverlapCol b demoCols == some 0)).getLast?) ∧
    map_row_to_grid demoRow demoCols = [some (mkBlock 1 20 0 60 10 "b"), none] :=
  ⟨(C10_grid_cell_last_writer demoRow demoCols 0 (by decide)).2, by decide⟩

/-! ### C4: label association -/

theorem blbStep_some (px py : ℚ) (acc : Option (Block × ℚ)) (b : Block)
    (bd : Block × ℚ) (h : blbStep px py acc b = some bd) :
    acc = some bd ∨ (bd = (b, px - b.bbox.x1) ∧ leftLabelCandidate px py b) := by
  cases acc with
  | none =>
    simp only [blbStep] at h
    split at h
    · next hs =>
      split at h
      · next hd =>
        right
        simp only [Bool.and_eq_true, decide_eq_true_eq] at hs
        exact ⟨(Option.some.inj h).symm, hs.1, hs.2, hd⟩
      · cases h
    · cases h
  | some bd0 =>
    simp only [blbStep] at h
    split at h
    · next hs =>
      split at h
      · next hd =>
        right
        simp only [Bool.and_eq_true, decide_eq_true_eq] at hs
        exact ⟨(Option.some.inj h).symm, hs.1, hs.2, hd.1⟩
      · exact Or.inl h
    · exact Or.inl h

theorem blbStep_none (px py : ℚ) (acc : Option (Block × ℚ)) (b : Block)
    (h : blbStep px py acc b = none) :
    acc = none ∧ ¬ leftLabelCandidate px py b := by
  cases acc with
  | none =>
    simp only [blbStep] at h
    split at h
    · next hs =>
      split at h
      · cases h
      · next hd =>
        exact ⟨rfl, fun hc => hd hc.2.2⟩
    · next hs =>
      refine ⟨rfl, fun hc => hs ?_⟩
      simp only [Bool.and_eq_true, decide_eq_true_eq]
      exact ⟨hc.1, hc.2.1⟩
  | some bd0 =>
    simp only [blbStep] at h
    split at h
    · split at h
      · cases h
      · cases h
    · cases h

theorem blbStep_cand (px py : ℚ) (acc : Option (Block × ℚ)) (b : Block)
    (h : leftLabelCandidate px py b) :
    ∃ bd, blbStep px py acc b = some bd ∧ bd.2 ≤ px - b.bbox.x1 := by
  have hs : (decide (b.bbox.x1 < px + 20) && decide (|b.bbox.y0 - py| < 15)) = true := by
    simp only [Bool.and_eq_true, decide_eq_true_eq]
    exact ⟨h.1, h.2.1⟩
  cases acc with
  | none =>
    refine ⟨(b, px - b.bbox.x1), ?_, le_refl _⟩
    simp only [blbStep, hs, if_true]
    rw [if_pos h.2.2]
  | some bd0 =>
    by_cases hd : 0 < px - b.bbox.x1 ∧ px - b.bbox.x1 < bd0.2
    · refine ⟨(b, px - b.bbox.x1), ?_, le_refl _⟩
      simp only [blbStep, hs, if_true]
      rw [if_pos hd]
    · refine ⟨bd0, ?_, ?_⟩
      · simp only [blbStep, hs, if_true]
        rw [if_neg hd]
      · push_neg at hd
        exact hd h.2.2

theorem blbFold_mono (px py : ℚ) (l : List Block) :
    ∀ bd : Block × ℚ,
      ∃ bd2, l.foldl (blbStep px py) (some bd) = some bd2 ∧ bd2.2 ≤ bd.2 := by
  induction l with
  | nil => exact fun bd => ⟨bd, rfl, le_refl _⟩
  | cons b bs ih =>
    intro bd
    rw [List.foldl_cons]
    have hstep : ∃ bd1, blbStep px py (some bd) b = some bd1 ∧ bd1.2 ≤ bd.2 := by
      simp only [blbStep]
      split
      · split
        · next hd => exact ⟨(b, px - b.bbox.x1), rfl, le_of_lt hd.2⟩
        · exact ⟨bd, rfl, le_refl _⟩
      · exact ⟨bd, rfl, le_refl _⟩
    obtain ⟨bd1, hbd1, hle1⟩ := hstep
    rw [hbd1]
    obtain ⟨bd2, h2, hle2⟩ := ih bd1
    exact ⟨bd2, h2, le_trans hle2 hle1⟩

theorem blbFold_spec (px py : ℚ) (l : List Block) :
    ∀ acc : Option (Block × ℚ),
      (∀ bd, acc = some bd → bd.2 = px - bd.1.bbox.x1 ∧ leftLabelCandidate px py bd.1) →
      (∀ bd2, l.foldl (blbStep px py) acc = some bd2 →
        (bd2.2 = px - bd2.1.bbox.x1 ∧ leftLabelCandidate px py bd2.1) ∧
        (acc = some bd2 ∨ bd2.1 ∈ l)) ∧
      (l.foldl (blbStep px py) acc = none →
        acc = none ∧ ∀ b ∈ l, ¬ leftLabelCandidate px py b) ∧
      (∀ b ∈ l, leftLabelCandidate px py b →
        ∀ bd2, l.foldl (blbStep px py) acc = some bd2 → bd2.2 ≤ px - b.bbox.x1) := by
  induction l with
  | nil =>
    intro acc hacc
    refine ⟨?_, ?_, ?_⟩
    · intro bd2 h2
      exact ⟨hacc bd2 h2, Or.inl h2⟩
    · intro h2
      exact ⟨h2, fun b hb => absurd hb (List.not_mem_nil b)⟩
    · intro b hb
      exact absurd hb (List.not_mem_nil b)
  | cons b bs ih =>
    intro acc hacc
    have hacc2 : ∀ bd, blbStep px py acc b = some bd →
        bd.2 = px - bd.1.bbox.x1 ∧ leftLabelCandidate px py bd.1 := by
      intro bd hbd
      rcases blbStep_some px py acc b bd hbd with h1 | h1
      · exact hacc bd h1
      · exact ⟨by rw [h1.1], h1.1 ▸ h1.2⟩
    obtain ⟨ihA, ihB, ihC⟩ := ih (blbStep px py acc b) hacc2
    rw [List.foldl_cons]
    refine ⟨?_, ?_, ?_⟩
    · intro bd2 h2
      obtain ⟨hinv, hmem⟩ := ihA bd2 h2
      refine ⟨hinv, ?_⟩
      rcases hmem with h3 | h3
      · rcases blbStep_some px py acc b bd2 h3 with h4 | h4
        · exact Or.inl h4
        · exact Or.inr (h4.1 ▸ List.mem_cons_self b bs)
      · exact Or.inr (List.mem_cons_of_mem b h3)
    · intro h2
      obtain ⟨hstep, hnone⟩ := ihB h2
      obtain ⟨haccn, hnb⟩ := blbStep_none px py acc b hstep
      refine ⟨haccn, ?_⟩
      intro b2 hb2
      rcases List.mem_cons.mp hb2 with h3 | h3
      · exact h3 ▸ hnb
      · exact hnone b2 h3
    · intro b2 hb2 hcand bd2 h2
      rcases List.mem_cons.mp hb2 with h3 | h3
      · subst h3
        obtain ⟨bd1, hbd1, hle1⟩ := blbStep_cand px py acc b2 hcand
        rw [hbd1] at h2
        obtain ⟨bd3, h3a, h3b⟩ := blbFold_mono px py bs bd1
        rw [h3a] at h2
        exact (Option.some.inj h2) ▸ le_trans h3b hle1
      · exact ihC b2 h3 hcand bd2 h2

/-- C4 (amended): label association considers, for each control, the text
blocks that pass the left/row screen (`x1 < pdf_x0 + 20` and top edges
within 15pt) and lie strictly left of the control (positive gap) — with no
bound on the horizontal gap — and attaches the nearest such block by
horizontal distance; no label is attached exactly when no block qualifies. -/
theorem C4_label_association (blocks : List Block) (scale : ℚ) (c : Control) :
    ((mapControl blocks scale c).label_block_id = none →
      ∀ b ∈ blocks, ¬ leftLabelCandidate (c.bbox.x0 / scale) (c.bbox.y0 / scale) b) ∧
    (∀ b, bestLeftBlock blocks (c.bbox.x0 / scale) (c.bbox.y0 / scale) = some b →
      (mapControl blocks scale c).label_block_id = some b.id ∧
      (mapControl blocks scale c).label_text = some b.text ∧
      b ∈ blocks ∧
      leftLabelCandidate (c.bbox.x0 / scale) (c.bbox.y0 / scale) b ∧
      ∀ b2 ∈ blocks, leftLabelCandidate (c.bbox.x0 / scale) (c.bbox.y0 / scale) b2 →
        c.bbox.x0 / scale - b.bbox.x1 ≤ c.bbox.x0 / scale - b2.bbox.x1) := by
  obtain ⟨specA, specB, specC⟩ :=
    blbFold_spec (c.bbox.x0 / scale) (c.bbox.y0 / scale) blocks none
      (fun bd h => by cases h)
  constructor
  · intro hnone b hb hcand
    have hfold : blocks.foldl (blbStep (c.bbox.x0 / scale) (c.bbox.y0 / scale)) none
        = none := by
      cases hf : blocks.foldl (blbStep (c.bbox.x0 / scale) (c.bbox.y0 / scale)) none with
      | none => rfl
      | some bd =>
        exfalso
        have hbest : bestLeftBlock blocks (c.bbox.x0 / scale) (c.bbox.y0 / scale)
            = some bd.1 := by
          unfold bestLeftBlock
          rw [hf]
          rfl
        simp only [mapControl] at hnone
        rw [hbest] at hnone
        cases hnone
    exact (specB hfold).2 b hb hcand
  · intro b hbest
    unfold bestLeftBlock at hbest
    rcases Option.map_eq_some'.mp hbest with ⟨bd, hfold, hfst⟩
    obtain ⟨⟨hdist, hcand⟩, hmem⟩ := specA bd hfold
    rcases hmem with h1 | h1
    · cases h1
    · have hbest2 : bestLeftBlock blocks (c.bbox.x0 / scale) (c.bbox.y0 / scale)
          = some b := hbest
      refine ⟨?_, ?_, hfst ▸ h1, hfst ▸ hcand, ?_⟩
      · simp only [mapControl]
        rw [hbest2]
      · simp only [mapControl]
        rw [hbest2]
      · intro b2 hb2 hcand2
        have := specC b2 hb2 hcand2 bd hfold
        rw [hfst] at hdist
        calc c.bbox.x0 / scale - b.bbox.x1 = bd.2 := hdist.symm
          _ ≤ c.bbox.x0 / scale - b2.bbox.x1 := this

/-- A raster-space control at x0 = 500pt (scale 1). -/
def farCtrl : Control := mkCtrl 500 100 512 112

/-- A block whose right edge is 490pt left of `farCtrl`, same top edge. -/
def farBlock : Block := mkBlock 0 2 100 10 108 "far"

/-- C4 counterexample: the label search has no bounded horizontal gap — a
block 490pt to the left of the control (well beyond the 50pt gap the code
uses in its own `has_label_to_left` screen) is still attached as the
control's label when it is the only candidate. -/
theorem C4_far_label_counterexample :
    (map_controls_to_blocks [farCtrl] [farBlock] 1).map (fun m => m.label_block_id)
      = [some 0] ∧
    (map_controls_to_blocks [farCtrl] [farBlock] 1).map (fun m => m.label_text)
      = [some "far"] ∧
    farCtrl.bbox.x0 / 1 - farBlock.bbox.x1 = 490 ∧
    (50:ℚ) < 490 := by decide

/-- C4 witness: the amended label-association theorem applied at
`farCtrl`/`farBlock`. -/
theorem C4_label_witness :
    (mapControl [farBlock] 1 farCtrl).label_block_id = some farBlock.id ∧
    farBlock ∈ [farBlock] ∧
    leftLabelCandidate (farCtrl.bbox.x0 / 1) (farCtrl.bbox.y0 / 1) farBlock := by
  have h := (C4_label_association [farBlock] 1 farCtrl).2 farBlock (by decide)
  exact ⟨h.1, h.2.2.1, h.2.2.2.1⟩

/-! ### C3: the grid-alignment override -/

theorem le_maxCountWhere_iff (xs : List ℤ) (ok : ℤ → Bool) :
    3 ≤ maxCountWhere xs ok ↔ ∃ x, ok x = true ∧ 3 ≤ xs.count x := by
  unfold maxCountWhere
  rw [le_foldr_max (by norm_num)]
  constructor
  · rintro ⟨m, hm, h3⟩
    rcases List.mem_map.mp hm with ⟨x, hx, rfl⟩
    rcases List.mem_filter.mp hx with ⟨_, hok⟩
    exact ⟨x, hok, h3⟩
  · rintro ⟨x, hok, h3⟩
    refine ⟨xs.count x, ?_, h3⟩
    apply List.mem_map.mpr
    refine ⟨x, ?_, rfl⟩
    apply List.mem_filter.mpr
    exact ⟨List.mem_dedup.mpr (List.count_pos_iff.mp (by omega)), hok⟩

/-- The trigger condition for the grid-alignment override, phrased as the
claim states it: at least 3 of the controls share a bucketed x-coordinate
that is not inside the left-margin band (first 5 percent of the page width),
or at least 3 share a bucketed y-coordinate. -/
def claimAlignmentCondition (controls : List Control) (scale pw : ℚ) : Prop :=
  (∃ x : ℤ, pw * (1/20) ≤ (x:ℚ) ∧
    3 ≤ (controls.map (fun c => bucket5 (controlCenterPdf c scale).1)).count x) ∨
  (∃ y : ℤ, 3 ≤ (controls.map (fun c => bucket5 (controlCenterPdf c scale).2)).count y)

theorem claimAlignment_iff (controls : List Control) (scale pw : ℚ) :
    claimAlignmentCondition controls scale pw ↔
      check_controls_aligned controls scale pw = true := by
  unfold claimAlignmentCondition check_controls_aligned
  by_cases hlen : controls.length < 3
  · rw [if_pos hlen]
    simp only [Bool.false_eq_true, iff_false]
    rintro (⟨x, _, h3⟩ | ⟨y, h3⟩)
    · have := List.count_le_length x
        (controls.map (fun c => bucket5 (controlCenterPdf c scale).1))
      rw [List.length_map] at this
      omega
    · have := List.count_le_length y
        (controls.map (fun c => bucket5 (controlCenterPdf c scale).2))
      rw [List.length_map] at this
      omega
  · rw [if_neg hlen]
    simp only [Bool.or_eq_true, decide_eq_true_eq, le_maxCountWhere_iff,
      List.map_map, Function.comp]
    constructor
    · rintro (⟨x, hx, h3⟩ | ⟨y, h3⟩)
      · exact Or.inl ⟨x, by simpa using hx, h3⟩
      · exact Or.inr ⟨y, trivial, h3⟩
    · rintro (⟨x, hx, h3⟩ | ⟨y, _, h3⟩)
      · exact Or.inl ⟨x, by simpa using hx, h3⟩
      · exact Or.inr ⟨y, h3⟩

/-- C3 (amended): when at least 3 size-valid controls share an aligned
x-coordinate outside the left-margin band or an aligned y-coordinate, every
size-valid control is kept except those whose center falls inside a text
block's bbox expanded by 5pt horizontally and 2pt vertically (the code pads
the bbox; the claim's unpadded reading fails, see the counterexample). -/
theorem C3_alignment_override (raw : List Control) (blocks : List Block)
    (scale pw : ℚ)
    (h : claimAlignmentCondition (sizeValidControls raw scale) scale pw) :
    filter_valid_controls raw blocks scale pw =
      (sizeValidControls raw scale).filter
        (fun c => !(controlInsideText c blocks scale)) := by
  simp only [filter_valid_controls]
  rw [if_pos ((claimAlignment_iff _ _ _).mp h)]

/-- The claim's phrase "center falls inside an existing text block's bbox",
without the padding the code actually applies. -/
def centerInsideBlockStrict (c : Control) (scale : ℚ) (b : Block) : Bool :=
  decide (b.bbox.x0 ≤ (controlCenterPdf c scale).1) &&
  decide ((controlCenterPdf c scale).1 ≤ b.bbox.x1) &&
  decide (b.bbox.y0 ≤ (controlCenterPdf c scale).2) &&
  decide ((controlCenterPdf c scale).2 ≤ b.bbox.y1)

/-- Three 12x12pt checkbox controls aligned at center x = 100. -/
def alignedCtrlA : Control := mkCtrl 94 4 106 16

/-- Second aligned control. -/
def alignedCtrlB : Control := mkCtrl 94 104 106 116

/-- Third aligned control. -/
def alignedCtrlC : Control := mkCtrl 94 204 106 216

/-- A size-valid control whose center (206, 50) lies 3pt to the right of
`trapBlock`'s right edge: outside the block's bbox, inside the padded one. -/
def nearTextCtrl : Control := mkCtrl 200 44 212 56

/-- The block whose padded bbox captures `nearTextCtrl`'s center. -/
def trapBlock : Block := mkBlock 0 150 45 203 52 "trap"

/-- The four raw controls of the C3 counterexample. -/
def c3Raw : List Control := [alignedCtrlA, alignedCtrlB, alignedCtrlC, nearTextCtrl]

/-- C3 counterexample: with the grid-alignment override active (three
controls aligned at x = 100, outside the 30pt margin band of a 600pt page),
`nearTextCtrl` is size-valid and its center lies inside no text block's
bbox, yet it is discarded — the code tests the bbox padded by 5pt/2pt, so
"every size-valid control is kept except those whose center falls inside an
existing text block's bbox" is false as stated. -/
theorem C3_padded_bbox_counterexample :
    check_controls_aligned (sizeValidControls c3Raw 1) 1 600 = true ∧
    sizeValidControls c3Raw 1 = [alignedCtrlA, alignedCtrlB, alignedCtrlC, nearTextCtrl] ∧
    centerInsideBlockStrict nearTextCtrl 1 trapBlock = false ∧
    filter_valid_controls c3Raw [trapBlock] 1 600 =
      [alignedCtrlA, alignedCtrlB, alignedCtrlC] := by decide

/-- Five 12x12pt checkbox shapes aligned on center x = 100 (page width 600,
margin band is x < 30). -/
def fiveAligned : List Control :=
  [mkCtrl 94 4 106 16, mkCtrl 94 104 106 116, mkCtrl 94 204 106 216,
   mkCtrl 94 304 106 316, mkCtrl 94 404 106 416]

/-- Label blocks to the left of only the first three of `fiveAligned`. -/
def labelBlocks3 : List Block :=
  [mkBlock 0 10 4 60 16 "l0", mkBlock 1 10 104 60 116 "l1",
   mkBlock 2 10 204 60 216 "l2"]

/-- C3 witness: the amended theorem applied to the claim's scenario — five
checkbox-like shapes aligned on a common x-coordinate outside the left
margin band, two of them with no label to their left, are all retained. -/
theorem C3_alignment_witness :
    claimAlignmentCondition (sizeValidControls fiveAligned 1) 1 600 ∧
    filter_valid_controls fiveAligned labelBlocks3 1 600 = fiveAligned ∧
    fiveAligned.length = 5 := by
  have hcond : claimAlignmentCondition (sizeValidControls fiveAligned 1) 1 600 :=
    Or.inl ⟨100, by decide, by decide⟩
  refine ⟨hcond, ?_, by decide⟩
  rw [C3_alignment_override fiveAligned labelBlocks3 1 600 hcond]
  decide

/-! ### C2: the visual-band row source -/

theorem filter_isEmpty_eq_not_any (p : α → Bool) (l : List α) :
    (l.filter p).isEmpty = !(l.any p) := by
  induction l with
  | nil => rfl
  | cons a as ih =>
    rw [List.filter_cons, List.any_cons]
    by_cases h : p a = true <;> simp [h, ih]

theorem length_filterMap_bandRow (blocks : List Block) (scale : ℚ) (bands : List Band) :
    (bands.filterMap (bandRow blocks scale)).length =
      bands.countP (fun band => blocks.any (blockCenterInBand band scale)) := by
  induction bands with
  | nil => rfl
  | cons band bs ih =>
    rw [List.filterMap_cons, List.countP_cons]
    by_cases hb : blocks.any (blockCenterInBand band scale) = true
    · have h1 : (blocks.filter (blockCenterInBand band scale)).isEmpty = false := by
        rw [filter_isEmpty_eq_not_any, hb]
        rfl
      have h2 : bandRow blocks scale band =
          some { blocks := sortAsc (fun b => b.bbox.x0)
                   (blocks.filter (blockCenterInBand band scale))
                 y_min := pyRoundTo 2 ((band.y0 : ℚ) / scale)
                 y_max := pyRoundTo 2 ((band.y1 : ℚ) / scale)
                 source := some "visual_band" } := by
        simp only [bandRow, h1, Bool.false_eq_true, if_false]
      rw [h2]
      simp [hb, ih]
    · have h1 : (blocks.filter (blockCenterInBand band scale)).isEmpty = true := by
        rw [filter_isEmpty_eq_not_any]
        simp only [Bool.not_eq_true] at hb
        rw [hb]
        rfl
      have h2 : bandRow blocks scale band = none := by
        simp only [bandRow, h1, if_true]
      rw [h2]
      simp [hb, ih]

theorem bandRow_some_spec (blocks : List Block) (scale : ℚ) (band : Band) (r : Row)
    (h : bandRow blocks scale band = some r) :
    r.source = some "visual_band" ∧
    ∀ b, b ∈ r.blocks ↔ (b ∈ blocks ∧ blockCenterInBand band scale b = true) := by
  simp only [bandRow] at h
  split at h
  · cases h
  · cases h
    refine ⟨rfl, ?_⟩
    intro b
    rw [mem_sortAsc]
    exact List.mem_filter

theorem assign_some_spec (blocks : List Block) (bands : List Band) (scale : ℚ)
    (rows : List Row) (h : assign_blocks_to_bands blocks bands scale = some rows) :
    rows.length = bands.countP (fun band => blocks.any (blockCenterInBand band scale)) ∧
    ∀ r ∈ rows, r.source = some "visual_band" ∧
      ∃ band ∈ bands, ∀ b, b ∈ r.blocks ↔
        (b ∈ blocks ∧ blockCenterInBand band scale b = true) := by
  simp only [assign_blocks_to_bands] at h
  split at h
  · cases h
  · split at h
    · cases h
    · cases h
      constructor
      · exact length_filterMap_bandRow blocks scale bands
      · intro r hr
        rcases List.mem_filterMap.mp hr with ⟨band, hband, hbr⟩
        obtain ⟨hsrc, hmem⟩ := bandRow_some_spec blocks scale band r hbr
        exact ⟨hsrc, band, hband, hmem⟩

theorem assign_none_spec (blocks : List Block) (bands : List Band) (scale : ℚ)
    (h : assign_blocks_to_bands blocks bands scale = none) :
    bands.countP (fun band => blocks.any (blockCenterInBand band scale)) = 0 := by
  simp only [assign_blocks_to_bands] at h
  split at h
  · next he =>
    rw [List.isEmpty_iff] at he
    rw [he]
    rfl
  · split at h
    · next he =>
      rw [List.isEmpty_iff] at he
      rw [← length_filterMap_bandRow blocks scale bands, he]
      rfl
    · cases h

/-- C2 (amended): in the form branch, visual bands are the authoritative row
source exactly when at least 3 bands each contain at least one block's
vertical center — not merely when at least 3 bands are found.  In that case
the selected rows are the classified band rows, one per non-empty band, each
carrying the visual-band source tag and holding exactly the blocks whose
vertical center falls in its band; otherwise the selection is the
text-y-proximity fallback, tagged as such at the record level. -/
theorem C2_row_source_selection (blocks : List Block) (bands : List Band)
    (scale pw : ℚ) (page_rows : List Row) (stats : Option StatsV) :
    ((selectFormRows blocks bands scale pw page_rows stats).2 = "visual_bands" ↔
      3 ≤ bands.countP (fun band => blocks.any (blockCenterInBand band scale))) ∧
    ((selectFormRows blocks bands scale pw page_rows stats).2 ≠ "visual_bands" →
      selectFormRows blocks bands scale pw page_rows stats =
        (page_rows, "text_y_proximity")) ∧
    ((selectFormRows blocks bands scale pw page_rows stats).2 = "visual_bands" →
      (selectFormRows blocks bands scale pw page_rows stats).1.length =
        bands.countP (fun band => blocks.any (blockCenterInBand band scale)) ∧
      ∀ r ∈ (selectFormRows blocks bands scale pw page_rows stats).1,
        r.source = some "visual_band" ∧
        ∃ band ∈ bands, ∀ b, b ∈ r.blocks ↔
          (b ∈ blocks ∧ blockCenterInBand band scale b = true)) := by
  cases ha : assign_blocks_to_bands blocks bands scale with
  | none =>
    have hcount := assign_none_spec blocks bands scale ha
    have hsel : selectFormRows blocks bands scale pw page_rows stats =
        (page_rows, "text_y_proximity") := by
      unfold selectFormRows
      rw [ha]
    have h2 : (selectFormRows blocks bands scale pw page_rows stats).2 =
        "text_y_proximity" := by rw [hsel]
    refine ⟨?_, fun _ => hsel, ?_⟩
    · rw [h2, hcount]
      constructor
      · intro h
        exact absurd h (by decide)
      · intro h
        omega
    · rw [h2]
      intro h
      exact absurd h (by decide)
  | some vr =>
    obtain ⟨hlen, hrows⟩ := assign_some_spec blocks bands scale vr ha
    by_cases hc : (!vr.isEmpty && decide (3 ≤ vr.length)) = true
    · have hsel : selectFormRows blocks bands scale pw page_rows stats =
          (classify_rows vr pw stats, "visual_bands") := by
        unfold selectFormRows
        rw [ha]
        exact if_pos hc
      have h2 : (selectFormRows blocks bands scale pw page_rows stats).2 =
          "visual_bands" := by rw [hsel]
      have h1 : (selectFormRows blocks bands scale pw page_rows stats).1 =
          classify_rows vr pw stats := by rw [hsel]
      simp only [Bool.and_eq_true, Bool.not_eq_true', decide_eq_true_eq] at hc
      refine ⟨?_, ?_, ?_⟩
      · rw [h2]
        exact ⟨fun _ => by omega, fun _ => rfl⟩
      · rw [h2]
        intro h
        exact absurd rfl h
      · intro _
        rw [h1]
        constructor
        · unfold classify_rows
          rw [List.length_map]
          exact hlen
        · intro r hr
          rcases List.mem_map.mp hr with ⟨r0, hr0, rfl⟩
          obtain ⟨hsrc, band, hband, hmem⟩ := hrows r0 hr0
          exact ⟨hsrc, band, hband, hmem⟩
    · have hsel : selectFormRows blocks bands scale pw page_rows stats =
          (page_rows, "text_y_proximity") := by
        unfold selectFormRows
        rw [ha]
        exact if_neg hc
      have h2 : (selectFormRows blocks bands scale pw page_rows stats).2 =
          "text_y_proximity" := by rw [hsel]
      refine ⟨?_, fun _ => hsel, ?_⟩
      · rw [h2]
        constructor
        · intro h
          exact absurd h (by decide)
        · intro h
          exfalso
          apply hc
          simp only [Bool.and_eq_true, Bool.not_eq_true', decide_eq_true_eq]
          constructor
          · rw [List.isEmpty_eq_false]
            intro he
            rw [he] at hlen
            simp at hlen
            omega
          · omega
      · rw [h2]
        intro h
        exact absurd h (by decide)

/-- C2 counterexample: a form page where three visual bands are found but
only two of them contain a block center — the claim says at least 3 bands
found makes visual bands authoritative, yet the pipeline falls back to the
text-y-proximity rows. -/
theorem C2_band_count_counterexample :
    threeBandsAnalysis.rowBands.length = 3 ∧
    resultPageType (extract_combined sparseDoc 1 threeBandsAnalysis) = some "form" ∧
    resultRowSource (extract_combined sparseDoc 1 threeBandsAnalysis) =
      some "text_y_proximity" := by decide

/-- C2 witness: the amended selection theorem applied to three bands that
each contain one block center — visual bands become authoritative and one
row is produced per band. -/
theorem C2_row_source_witness :
    (selectFormRows threeRowBlocks threeFullBandsAnalysis.rowBands 1 600 [] none).2 =
      "visual_bands" ∧
    (selectFormRows threeRowBlocks threeFullBandsAnalysis.rowBands 1 600 [] none).1.length
      = 3 := by
  have h := C2_row_source_selection threeRowBlocks threeFullBandsAnalysis.rowBands
    1 600 [] none
  have h2 : (selectFormRows threeRowBlocks threeFullBandsAnalysis.rowBands
      1 600 [] none).2 = "visual_bands" := h.1.mpr (by decide)
  refine ⟨h2, ?_⟩
  rw [(h.2.2 h2).1]
  decide

/-! ### C9: every output control item is a checkbox -/

theorem checkboxOfCandidate_ctype (ms mx : ℤ) (cd : CheckboxCandidate) (c : Control)
    (h : checkboxOfCandidate ms mx cd = some c) : c.ctype = "checkbox" := by
  simp only [checkboxOfCandidate] at h
  repeat' split at h
  all_goals cases h <;> rfl

theorem detect_checkboxes_ctype (cands : List CheckboxCandidate) (ms mx : ℤ)
    (c : Control) (h : c ∈ detect_checkboxes cands ms mx) : c.ctype = "checkbox" := by
  unfold detect_checkboxes at h
  rcases List.mem_filterMap.mp (mem_remove_overlapping h) with ⟨cd, _, hcd⟩
  exact checkboxOfCandidate_ctype ms mx cd c hcd

theorem mapControl_ctrl (blocks : List Block) (scale : ℚ) (c : Control) :
    (mapControl blocks scale c).ctrl = c := by
  simp only [mapControl]
  split <;> rfl

theorem filter_valid_subset (raw : List Control) (blocks : List Block)
    (scale pw : ℚ) (c : Control)
    (h : c ∈ filter_valid_controls raw blocks scale pw) : c ∈ raw := by
  simp only [filter_valid_controls] at h
  split at h <;>
    exact (List.mem_filter.mp (List.mem_filter.mp h).1).1

/-- C9: every element of the combined record's controls.items has type
"checkbox": only the checkbox list of the detector output is passed into
filtering, feature computation and label mapping, so radio-button and
input-box detections never appear in the output record. -/
theorem C9_items_all_checkbox (doc : List PageDoc) (page_num : ℤ)
    (a : ImageAnalysis) :
    ∀ mc ∈ resultItems (extract_combined doc page_num a),
      mc.ctrl.ctype = "checkbox" := by
  intro mc hmc
  cases hpdf : extract_pdf doc page_num with
  | nil =>
    rw [extract_combined, hpdf] at hmc
    simp [resultItems] at hmc
  | cons p rest =>
    rw [extract_combined, hpdf] at hmc
    simp only at hmc
    split at hmc
    · simp only [resultItems] at hmc
      unfold map_controls_to_blocks at hmc
      rcases List.mem_map.mp hmc with ⟨c, hc, rfl⟩
      rw [mapControl_ctrl]
      rcases List.mem_map.mp hc with ⟨cb, hcb, rfl⟩
      show cb.ctype = "checkbox"
      have hraw := filter_valid_subset _ _ _ _ cb hcb
      exact detect_checkboxes_ctype _ _ _ cb hraw
    · simp [resultItems] at hmc

/-- Analysis whose single checkbox candidate survives detection and
filtering on the sparse form page. -/
def oneCbAnalysis : ImageAnalysis :=
  { emptyAnalysis with cbCands :=
      [{ x := 300, y := 400, w := 15, h := 15, approxLen := 4
         centerMean := 250, edgeMean := 100 }] }

/-- C9 witness: a concrete run whose items list is nonempty; its element is
a checkbox by the theorem. -/
theorem C9_items_witness :
    (resultItems (extract_combined sparseDoc 1 oneCbAnalysis)).length = 1 ∧
    ((resultItems (extract_combined sparseDoc 1 oneCbAnalysis)).getD 0
      dummyMapped).ctrl.ctype = "checkbox" :=
  ⟨by decide, C9_items_all_checkbox sparseDoc 1 oneCbAnalysis _ (by decide)⟩

end Layout
